import Mathlib

/-!
Verification model of the mode-and-model switcher in `src/control/app.py`.

The Python source is shallowly embedded as executable Lean definitions.
External collaborators are modelled explicitly:

* The docker socket proxy is a pure response environment
  `docker : String → String → DResp` mapping (HTTP method, path) to the
  response the proxy would give; every request is also appended to a log so
  that theorems can talk about which container operations were issued.
* The LiteLLM gateway inventory endpoint is a response environment
  `llm : Nat → LResp` indexed by the number of probes made so far.
* Wall-clock instants are integers (seconds); `datetime.isoformat` and
  `datetime.fromisoformat` are modelled by `toString` and `parseInt`,
  which share the relevant behaviour: formatting then parsing round-trips,
  and parsing fails (returns `none`) exactly on ill-formed text.
* Python locals that are mutated across the `try/except` boundary of a
  pipeline (`steps`, `disruptive_started`) are modelled as explicit scratch
  fields of the world, because an exception handler observes their latest
  values.
* Poll loops bounded by a wall-clock deadline (`wait_container_ready`,
  `wait_litellm_model`) perform one probe per `POLL_INTERVAL_SECONDS`, so
  they are modelled with a fuel of `timeout / POLL_INTERVAL_SECONDS`
  iterations.
-/

namespace AICompose

/-- Parsed `State` section of a docker inspect response. -/
structure ContainerInfo where
  status : Option String
  health : Option String
deriving DecidableEq, Repr

/-- Response of the docker proxy to one request: either a transport error
(`requests.RequestException`) or an HTTP response with a status code, the
parsed inspect body (`none` when the body is not JSON), and the body text. -/
inductive DResp
  | exn (msg : String)
  | resp (code : Nat) (info : Option ContainerInfo) (text : String)
deriving DecidableEq, Repr

/-- An item of the `data` array of the LiteLLM `/v1/models` payload. -/
inductive LItem
  | notDict
  | item (id : Option String)
deriving DecidableEq, Repr

/-- Parsed JSON payload of the LiteLLM `/v1/models` endpoint. -/
inductive LJson
  | notDict
  | dict (data : List LItem)
deriving DecidableEq, Repr

/-- Response of the LiteLLM gateway to one probe: either a transport error
or an HTTP response; `body = none` means the body fails to parse as JSON
(`response.json()` raises). -/
inductive LResp
  | exn
  | resp (code : Nat) (body : Option LJson)
deriving DecidableEq, Repr

/-- One step record of a switch job (`at_` stands for the source key `at`,
which is a reserved word in Lean). -/
structure StepRec where
  step : String
  at_ : String
  ok : Bool
  detail : String
deriving DecidableEq, Repr

/-- The in-memory switch job record (`CURRENT_SWITCH`). -/
structure Job where
  id : Nat
  state : String
  from_model : Option String
  to_model : String
  current_step : Option String
  state_text : String
  started_at : String
  updated_at : String
  finished_at : Option String
  duration_ms : Int
  error : Option String
  steps : List StepRec
  ready : Bool
  startedMonotonic : Int
deriving DecidableEq, Repr

/-- Python exception kinds distinguished by the handlers in the source:
`HTTPException`, `RuntimeError`, and every other exception. -/
inductive PyErr
  | httpExc (code : Nat) (detail : String)
  | runtimeError (msg : String)
  | otherExc (msg : String)
deriving DecidableEq, Repr

/-- The world: persisted files, external environments, logs and process
globals of `src/control/app.py`. -/
structure World where
  activeConfigFile : Option String
  activeModelFile : Option String
  activeModeFile : Option String
  leaseFile : Option String
  templates : List (String × String)
  now : Int
  docker : String → String → DResp
  dockerLog : List (String × String)
  llm : Nat → LResp
  llmPolls : Nat
  lastError : Option String
  lastSwitchAt : Option String
  switchIdSeq : Nat
  currentSwitch : Option Job
  switchLocked : Bool
  pipeSteps : List StepRec
  pipeDisruptive : Bool

/-- State-and-exception monad over the world (exceptions keep the state
reached so far, as Python exceptions do). -/
def M (α : Type) : Type := World → Except PyErr α × World

instance : Monad M where
  pure a := fun w => (Except.ok a, w)
  bind x f := fun w =>
    match x w with
    | (Except.ok a, w') => f a w'
    | (Except.error e, w') => (Except.error e, w')

def throwErr {α : Type} (e : PyErr) : M α := fun w => (Except.error e, w)

/-- `try body except e: handler e`. -/
def attempt {α : Type} (body : M α) (handler : PyErr → M α) : M α := fun w =>
  match body w with
  | (Except.ok a, w') => (Except.ok a, w')
  | (Except.error e, w') => handler e w'

def getWorld : M World := fun w => (Except.ok w, w)

def modifyWorld (f : World → World) : M Unit := fun w => (Except.ok (), f w)

/-- The four persisted files of the Active-State Store. -/
inductive PathId
  | activeConfig
  | activeModel
  | activeMode
  | comfyLease
deriving DecidableEq, Repr

def World.readPath (w : World) : PathId → Option String
  | .activeConfig => w.activeConfigFile
  | .activeModel => w.activeModelFile
  | .activeMode => w.activeModeFile
  | .comfyLease => w.leaseFile

def World.writePath (w : World) (p : PathId) (s : String) : World :=
  match p with
  | .activeConfig => { w with activeConfigFile := some s }
  | .activeModel => { w with activeModelFile := some s }
  | .activeMode => { w with activeModeFile := some s }
  | .comfyLease => { w with leaseFile := some s }

def World.removePath (w : World) (p : PathId) : World :=
  match p with
  | .activeConfig => { w with activeConfigFile := none }
  | .activeModel => { w with activeModelFile := none }
  | .activeMode => { w with activeModeFile := none }
  | .comfyLease => { w with leaseFile := none }

def read_optional_text (p : PathId) : M (Option String) := fun w =>
  (Except.ok (w.readPath p), w)

def write_text (p : PathId) (content : String) : M Unit :=
  modifyWorld (fun w => w.writePath p content)

def remove_file (p : PathId) : M Unit :=
  modifyWorld (fun w => w.removePath p)

/-- `datetime.now(timezone.utc)` as integer seconds. -/
def nowTime : M Int := fun w => (Except.ok w.now, w)

/-- `datetime.now(timezone.utc).isoformat()`. -/
def utc_now : M String := fun w => (Except.ok (toString w.now), w)

/-- `time.monotonic()` (shares the world clock). -/
def monoTime : M Int := fun w => (Except.ok w.now, w)

/-! ### Configuration constants (environment defaults of the source) -/

def DEFAULT_MODEL : String := "qwen-fast"
def HEALTH_TIMEOUT_SECONDS : Nat := 480
def POLL_INTERVAL_SECONDS : Nat := 2
def LITELLM_VERIFY_TIMEOUT_SECONDS : Nat := 90
def LITELLM_CONTAINER : String := "litellm"
def COMFY_CONTAINER : String := "comfyui"
def MODE_LLM : String := "llm"
def MODE_COMFY : String := "comfy"
def VALID_MODES : List String := [ MODE_LLM, MODE_COMFY ]
def DEFAULT_COMFY_TTL_MINUTES : Int := 45
def MAX_COMFY_TTL_MINUTES : Int := 90
def FINAL_SWITCH_STATES : List String := ["success", "failed", "rolled_back"]

/-- One entry of the static `MODELS` catalogue. -/
structure ModelMeta where
  id : String
  container : String
  template : String
  litellm_model : String
deriving DecidableEq, Repr

def MODELS : List ModelMeta :=
  [ { id := "qwen-fast", container := "vllm-fast", template := "qwen-fast.yml",
      litellm_model := "qwen-fast" },
    { id := "qwen-quality", container := "vllm-quality", template := "qwen-quality.yml",
      litellm_model := "qwen-quality" },
    { id := "deepseek", container := "vllm-deepseek", template := "deepseek.yml",
      litellm_model := "deepseek-r1" },
    { id := "qwen-max", container := "vllm-qwen32b", template := "qwen-max.yml",
      litellm_model := "qwen-max" } ]

/-- `MODELS[key]` lookup; `isSome` models Python `key in MODELS`. -/
def modelMeta? (id : String) : Option ModelMeta := MODELS.find? (fun m => m.id == id)

/-- `str(x)` on an optional string (`str(None)` is the text `None`). -/
def pyStr : Option String → String
  | none => "None"
  | some s => s

/-- `str.strip()` (implemented over the character list so that proofs can
evaluate it). -/
def pyStrip (s : String) : String :=
  ⟨((s.data.dropWhile Char.isWhitespace).reverse.dropWhile Char.isWhitespace).reverse⟩

/-- `str.lower()` (ASCII, which covers every string the source compares). -/
def pyLower (s : String) : String := ⟨s.data.map Char.toLower⟩

def parseDigits : List Char → Option Nat → Option Nat
  | [], acc => acc
  | c :: cs, acc =>
    if c.isDigit then parseDigits cs (some ((acc.getD 0) * 10 + (c.toNat - 48)))
    else none

/-- Integer parsing for the integer-seconds timestamp model (an optional
sign followed by at least one digit; anything else fails). -/
def parseInt (s : String) : Option Int :=
  match s.data with
  | '-' :: rest => (parseDigits rest none).map (fun n => -(n : Int))
  | ds => (parseDigits ds none).map (fun n => (n : Int))

/-! ### Runtime state and switch-job record -/

def set_runtime_state (last_error : Option String) (clear_error : Bool) : M Unit := do
  let now ← utc_now
  modifyWorld fun w =>
    let w := if clear_error then { w with lastError := none }
             else match last_error with
                  | some e => { w with lastError := some e }
                  | none => w
    { w with lastSwitchAt := some now }

def create_switch_state (to_model : String) (state : String) (state_text : String)
    (from_model : Option String) (current_step : Option String) : M Nat := do
  let now ← utc_now
  let mono ← monoTime
  fun w =>
    let switch_id := w.switchIdSeq + 1
    let job : Job :=
      { id := switch_id, state := state, from_model := from_model, to_model := to_model,
        current_step := current_step, state_text := state_text, started_at := now,
        updated_at := now, finished_at := none, duration_ms := 0, error := none,
        steps := [], ready := false, startedMonotonic := mono }
    (Except.ok switch_id, { w with switchIdSeq := switch_id, currentSwitch := some job })

/-- `_elapsed_ms` of a job (the monotonic start is always recorded here). -/
def elapsedMs (job : Job) (mono : Int) : Int := (mono - job.startedMonotonic) * 1000

/-- Field updates for `update_switch_state`; an outer `none` is the source
sentinel `UNSET` (leave the field alone), while `some none` writes `None`. -/
structure UpdateArgs where
  state : Option String
  from_model : Option (Option String)
  to_model : Option String
  current_step : Option (Option String)
  state_text : Option String
  error : Option (Option String)
  ready : Option Bool
  steps : Option (List StepRec)
deriving DecidableEq, Repr

def noUpdate : UpdateArgs :=
  { state := none, from_model := none, to_model := none, current_step := none,
    state_text := none, error := none, ready := none, steps := none }

/-- The job transformation applied by `update_switch_state` once the id
check has passed. -/
def applyUpdate (job : Job) (a : UpdateArgs) (now : Int) : Job :=
  let nowS := toString now
  let job1 : Job := match a.state with | some s => { job with state := s } | none => job
  let job2 : Job := match a.from_model with | some f => { job1 with from_model := f } | none => job1
  let job3 : Job := match a.to_model with | some t => { job2 with to_model := t } | none => job2
  let job4 : Job := match a.current_step with | some c => { job3 with current_step := c } | none => job3
  let job5 : Job := match a.state_text with | some t => { job4 with state_text := t } | none => job4
  let job6 : Job := match a.error with | some e => { job5 with error := e } | none => job5
  let job7 : Job := match a.ready with | some r => { job6 with ready := r } | none => job6
  let job8 : Job := match a.steps with | some s => { job7 with steps := s } | none => job7
  let job9 : Job :=
    if job8.finished_at = none ∧ job8.state ∈ FINAL_SWITCH_STATES then
      { job8 with finished_at := some nowS, duration_ms := elapsedMs job8 now }
    else if job8.finished_at = none then
      { job8 with duration_ms := elapsedMs job8 now }
    else job8
  { job9 with updated_at := nowS }

def update_switch_state (switch_id : Nat) (a : UpdateArgs) : M Unit := fun w =>
  match w.currentSwitch with
  | none => (Except.ok (), w)
  | some job =>
    if job.id ≠ switch_id then (Except.ok (), w)
    else (Except.ok (), { w with currentSwitch := some (applyUpdate job a w.now) })

/-- `add_step`: append a step record to the pipeline-local list and mirror it
into the job record.  `error` follows the `UNSET` convention of
`UpdateArgs.error`. -/
def add_step (step : String) (ok : Bool) (detail : String) (switch_id : Option Nat)
    (state : Option String) (state_text : Option String) (ready : Option Bool)
    (error : Option (Option String)) : M Unit := do
  let now ← utc_now
  let entry : StepRec := { step := step, at_ := now, ok := ok, detail := detail }
  modifyWorld fun w => { w with pipeSteps := w.pipeSteps ++ [entry] }
  match switch_id with
  | none => pure ()
  | some sid => do
    let switch_error : Option (Option String) :=
      match error with
      | some e => some e
      | none => if ok then none else some (some detail)
    let w ← getWorld
    update_switch_state sid
      { noUpdate with
        current_step := some (some step),
        state_text := some (match state_text with | some t => t | none => detail),
        steps := some w.pipeSteps,
        state := state,
        ready := ready,
        error := switch_error }

/-- Snapshot view of the current job (`_public_switch_state` under the state
lock); the live duration recomputation uses the shared clock. -/
def current_switch_snapshot : M (Option Job) := fun w =>
  match w.currentSwitch with
  | none => (Except.ok none, w)
  | some job =>
    let job :=
      if job.finished_at = none then { job with duration_ms := elapsedMs job w.now }
      else job
    (Except.ok (some job), w)

/-! ### Orchestration port (docker proxy requests) -/

/-- `docker_request`: issue a request, log it, and turn a transport error
into a `RuntimeError` as the source wrapper does. -/
def docker_request (method path : String) : M DResp := fun w =>
  let w := { w with dockerLog := w.dockerLog ++ [(method, path)] }
  match w.docker method path with
  | DResp.exn msg => (Except.error (PyErr.runtimeError msg), w)
  | r => (Except.ok r, w)

/-- `container_json`: `None` on 404, `RuntimeError` on other HTTP errors,
parsed `State` on success; an unparseable 2xx body raises out of the
function as `response.json()` would. -/
def container_json (name : String) : M (Option ContainerInfo) := do
  let r ← docker_request "GET" ("/containers/" ++ name ++ "/json")
  match r with
  | DResp.exn msg => throwErr (PyErr.runtimeError msg)
  | DResp.resp code info text =>
    if code == 404 then pure none
    else if code ≥ 400 then throwErr (PyErr.runtimeError ("docker error: " ++ text))
    else
      match info with
      | some i => pure (some i)
      | none => throwErr (PyErr.otherExc "response body is not valid json")

def container_start (name : String) : M Unit := do
  let r ← docker_request "POST" ("/containers/" ++ name ++ "/start")
  match r with
  | DResp.exn msg => throwErr (PyErr.runtimeError msg)
  | DResp.resp code _ text =>
    if code == 204 ∨ code == 304 then pure ()
    else if code == 404 then throwErr (PyErr.runtimeError ("container not found: " ++ name))
    else throwErr (PyErr.runtimeError ("docker error: " ++ text))

def container_stop (name : String) : M Unit := do
  let r ← docker_request "POST" ("/containers/" ++ name ++ "/stop")
  match r with
  | DResp.exn msg => throwErr (PyErr.runtimeError msg)
  | DResp.resp code _ text =>
    if code == 204 ∨ code == 304 then pure ()
    else if code == 404 then pure ()
    else throwErr (PyErr.runtimeError ("docker error: " ++ text))

/-- Stop every catalogue backend container, in catalogue order. -/
def stop_models_loop : List ModelMeta → M Unit
  | [] => pure ()
  | meta :: rest => do
    container_stop meta.container
    stop_models_loop rest

def stop_all_model_containers : M Unit := stop_models_loop MODELS

/-! ### Active-State Store -/

/-- `parse_utc_iso` over the integer-seconds time model. -/
def parse_utc_iso (value : String) : Option Int :=
  let normalized := pyStrip value
  if normalized = "" then none
  else parseInt normalized

def active_mode : M String := do
  let raw ← read_optional_text PathId.activeMode
  match raw with
  | none => pure MODE_LLM
  | some raw =>
    let mode := pyLower (pyStrip raw)
    pure (if mode ∈ VALID_MODES then mode else MODE_LLM)

def set_active_mode (mode : String) : M Unit := do
  if mode ∉ VALID_MODES then throwErr (PyErr.runtimeError ("invalid mode: " ++ mode))
  write_text PathId.activeMode (mode ++ "\n")
  if mode ≠ MODE_COMFY then remove_file PathId.comfyLease

def comfy_lease_until : M (Option Int) := do
  let raw ← read_optional_text PathId.comfyLease
  match raw with
  | none => pure none
  | some raw => pure (parse_utc_iso raw)

def set_comfy_lease (ttl_minutes : Int) : M Int := do
  let now ← nowTime
  let deadline := now + ttl_minutes * 60
  write_text PathId.comfyLease (toString deadline ++ "\n")
  pure deadline

def clear_comfy_lease : M Unit := remove_file PathId.comfyLease

/-- The lease section of the status payload. -/
structure LeaseStatus where
  expires_at : Option String
  remaining_seconds : Option Int
  expired : Bool
deriving DecidableEq, Repr

def comfy_lease_status : M LeaseStatus := do
  let lease_until ← comfy_lease_until
  match lease_until with
  | none => pure { expires_at := none, remaining_seconds := none, expired := false }
  | some lease_until => do
    let now ← nowTime
    let remaining : Int := lease_until - now
    pure { expires_at := some (toString lease_until),
           remaining_seconds := some (max remaining 0),
           expired := remaining ≤ 0 }

def normalize_comfy_ttl (ttl_minutes : Option Int) : M Int := do
  match ttl_minutes with
  | none => pure DEFAULT_COMFY_TTL_MINUTES
  | some t =>
    if t ≤ 0 then throwErr (PyErr.httpExc 400 "ttl_minutes must be greater than 0")
    else if t > MAX_COMFY_TTL_MINUTES then
      throwErr (PyErr.httpExc 400 ("ttl_minutes must be <= " ++ toString MAX_COMFY_TTL_MINUTES))
    else pure t

def active_model : M (Option String) := do
  let value ← read_optional_text PathId.activeModel
  match value with
  | none => pure none
  | some value =>
    let current := pyStrip value
    pure (if (modelMeta? current).isSome then some current else none)

def ensure_active_config (model : String) : M Unit := do
  let template_name :=
    match modelMeta? model with
    | some meta => meta.template
    | none => ""
  let w ← getWorld
  match w.templates.find? (fun t => t.1 == template_name) with
  | none => throwErr (PyErr.runtimeError ("template not found: " ++ template_name))
  | some t => do
    write_text PathId.activeConfig t.2
    write_text PathId.activeModel model

def restore_active_files (previous_config previous_model : Option String) : M Unit := do
  match previous_config with
  | none => remove_file PathId.activeConfig
  | some c => write_text PathId.activeConfig c
  match previous_model with
  | none => remove_file PathId.activeModel
  | some m => write_text PathId.activeModel m

/-! ### Container snapshots and readiness waits -/

/-- One container entry of the status payload. -/
structure ContState where
  exists_ : Bool
  status : Option String
  health : Option String
  error : Option String
deriving DecidableEq, Repr

def state_snapshot (name : String) : M ContState := do
  let info ← container_json name
  match info with
  | none => pure { exists_ := false, status := none, health := none, error := none }
  | some info =>
    pure { exists_ := true, status := info.status, health := info.health, error := none }

/-- Body of the `wait_container_ready` poll loop; one probe per fuel unit. -/
def wait_container_go (name : String) : Nat → String → String → M Unit
  | 0, last_status, last_health =>
    throwErr (PyErr.runtimeError
      ("timeout waiting healthy for " ++ name ++ " (status=" ++ last_status ++
        ", health=" ++ last_health ++ ")"))
  | fuel + 1, last_status, last_health => do
    let info ← container_json name
    match info with
    | none => throwErr (PyErr.runtimeError ("container not found while waiting: " ++ name))
    | some info => do
      let last_status := match info.status with
        | some s => if s ≠ "" then s else last_status
        | none => last_status
      let last_health := match info.health with
        | some h => if h ≠ "" then h else last_health
        | none => last_health
      let afterHealth : M Unit :=
        if info.status = some "exited" ∨ info.status = some "dead" then
          throwErr (PyErr.runtimeError
            ("container not running: " ++ name ++ " (" ++ pyStr info.status ++ ")"))
        else wait_container_go name fuel last_status last_health
      match info.health with
      | some h =>
        if h == "healthy" then pure ()
        else if h == "unhealthy" then
          throwErr (PyErr.runtimeError ("container unhealthy: " ++ name))
        else afterHealth
      | none =>
        if info.status = some "running" then pure ()
        else afterHealth

def wait_container_ready (name : String) (timeout_seconds : Nat) : M Unit :=
  wait_container_go name (timeout_seconds / POLL_INTERVAL_SECONDS) "unknown" "unknown"

/-- One GET of the LiteLLM model inventory (advances the probe counter). -/
def litellm_get : M LResp := fun w =>
  (Except.ok (w.llm w.llmPolls), { w with llmPolls := w.llmPolls + 1 })

/-- Body of the `wait_litellm_model` poll loop; one probe per fuel unit.
Note that in the source only the `requests.get` call is inside the
`try/except RequestException`, so a JSON parse failure of a 200 response
propagates out of the function instead of being retried. -/
def wait_litellm_go (model : String) : Nat → M Unit
  | 0 => throwErr (PyErr.runtimeError ("litellm did not expose model " ++ model ++ " in time"))
  | fuel + 1 => do
    let r ← litellm_get
    match r with
    | LResp.exn => wait_litellm_go model fuel
    | LResp.resp code body =>
      if code == 401 ∨ code == 403 then
        throwErr (PyErr.runtimeError "litellm auth failed while verifying model list")
      else if code == 200 then
        match body with
        | none => throwErr (PyErr.otherExc "response body is not valid json")
        | some payload =>
          let data := match payload with
            | LJson.dict d => d
            | LJson.notDict => []
          let model_ids := data.filterMap (fun it =>
            match it with
            | LItem.item i => some (pyStr i)
            | LItem.notDict => none)
          if model ∈ model_ids then pure ()
          else wait_litellm_go model fuel
      else wait_litellm_go model fuel

def wait_litellm_model (model : String) (timeout_seconds : Nat) : M Unit :=
  wait_litellm_go model (timeout_seconds / POLL_INTERVAL_SECONDS)

def ensure_container_created (name : String) (bootstrap_target : String) : M Unit := do
  let info ← container_json name
  if info = none then
    throwErr (PyErr.httpExc 412
      ("target container is not created: " ++ name ++ ". Run make " ++ bootstrap_target ++ " first."))

/-! ### Status payload -/

/-- The aggregate `/status` payload. -/
structure Status where
  running_models : List String
  active_model : Option String
  active_mode : String
  mode_default : String
  lease : LeaseStatus
  active_config_path : Option String
  active_mode_path : Option String
  active_lease_path : Option String
  containers : List (String × ContState)
  litellm : ContState
  comfyui : ContState
  switch_in_progress : Bool
  last_error : Option String
  last_switch_at : Option String
  switch : Option Job
deriving DecidableEq, Repr

def running_models_from_status (status : Status) : List String :=
  status.running_models

/-- `state_snapshot` with the `except RuntimeError` wrapper used per
container in `status_payload` (other exception kinds propagate, as they
would escape `except RuntimeError`). -/
def snapshot_or_error (name : String) : M ContState :=
  attempt (state_snapshot name) fun e =>
    match e with
    | PyErr.runtimeError msg =>
      pure { exists_ := false, status := none, health := none, error := some msg }
    | e => throwErr e

/-- The per-model loop of `status_payload`: snapshot each catalogue
container in order, collecting the snapshots and the ids reported
`running`. -/
def snapshots_loop : List ModelMeta → M (List String × List (String × ContState))
  | [] => pure ([], [])
  | meta :: rest => do
    let snapshot ← snapshot_or_error meta.container
    let tail ← snapshots_loop rest
    pure ((if snapshot.status = some "running" then [meta.id] else []) ++ tail.1,
      (meta.id, snapshot) :: tail.2)

def status_payload : M Status := do
  let loop ← snapshots_loop MODELS
  let running_models : List String := loop.1
  let containers : List (String × ContState) := loop.2
  let litellm_info ← snapshot_or_error LITELLM_CONTAINER
  let comfy_info ← snapshot_or_error COMFY_CONTAINER
  let w ← getWorld
  let mode ← active_mode
  let lease ← comfy_lease_status
  let am ← active_model
  let snap ← current_switch_snapshot
  pure
    { running_models := running_models,
      active_model := am,
      active_mode := mode,
      mode_default := MODE_LLM,
      lease := lease,
      active_config_path := if w.activeConfigFile.isSome then some "active.yml" else none,
      active_mode_path := if w.activeModeFile.isSome then some "active.mode" else none,
      active_lease_path := if w.leaseFile.isSome then some "active.mode.lease_until" else none,
      containers := containers,
      litellm := litellm_info,
      comfyui := comfy_info,
      switch_in_progress := w.switchLocked,
      last_error := w.lastError,
      last_switch_at := w.lastSwitchAt,
      switch := snap }

/-- The terminal payload returned by a pipeline run. -/
structure SwitchResponse where
  payload : Status
  switch_id : Nat
  status : String
  from_model : Option String
  to_model : String
  steps : List StepRec
  duration_ms : Int
  error : Option String
deriving DecidableEq, Repr

def switch_response (switch_id : Nat) (status : String) (from_model : Option String)
    (to_model : String) (steps : List StepRec) (started : Int)
    (error : Option String) : M SwitchResponse := do
  let payload ← status_payload
  let mono ← monoTime
  pure
    { payload := payload, switch_id := switch_id, status := status,
      from_model := from_model, to_model := to_model, steps := steps,
      duration_ms := (mono - started) * 1000, error := error }

/-! ### LLM switch pipeline (`run_switch_pipeline`) -/

/-- `str(exc)` (for `HTTPException`, Starlette renders `code: detail`). -/
def excMsg : PyErr → String
  | PyErr.httpExc code detail => toString code ++ ": " ++ detail
  | PyErr.runtimeError msg => msg
  | PyErr.otherExc msg => msg

/-- `from_model` as both pipelines derive it:
`running_before[0] if running_before else before.get("active_model")`. -/
def pipeline_from_model (running_before : List String) (active : Option String) :
    Option String :=
  match running_before with
  | [] => active
  | m :: _ => some m

/-- The guard of the no-op short-circuit of `run_switch_pipeline`:
`from_model == model and len(running_before) == 1`. -/
def llm_noop_condition (from_model : Option String) (running_before : List String)
    (model : String) : Bool :=
  from_model == some model && running_before.length == 1

/-- The guard of the full-rollback branch of `run_switch_pipeline`:
`disruptive_started and from_model and from_model in MODELS and from_model != model`. -/
def llm_rollback_condition (disruptive_started : Bool) (from_model : Option String)
    (model : String) : Bool :=
  disruptive_started &&
    (match from_model with
     | some fm => fm != "" && (modelMeta? fm).isSome && fm != model
     | none => false)

/-- The no-op short-circuit branch of `run_switch_pipeline`. -/
def llm_noop_branch (model : String) (switch_id : Nat) (from_model : Option String)
    (started : Int) : M SwitchResponse := do
  add_step "noop" true ("model " ++ model ++ " is already active")
    (some switch_id) (some "success") (some "Modelo disponible") (some true) (some none)
  set_runtime_state none true
  set_active_mode MODE_LLM
  clear_comfy_lease
  let w ← getWorld
  update_switch_state switch_id
    { noUpdate with
      state := some "success", current_step := some (some "complete"),
      state_text := some "Modelo disponible", ready := some true, error := some none,
      steps := some w.pipeSteps }
  let w2 ← getWorld
  switch_response switch_id "success" from_model model w2.pipeSteps started none

/-- The disruptive main path of `run_switch_pipeline` (the `else` side of
the no-op short-circuit). -/
def llm_main_branch (model target_container : String) (switch_id : Nat)
    (from_model : Option String) (started : Int) : M SwitchResponse := do
  update_switch_state switch_id
    { noUpdate with
      current_step := some (some "stop_litellm"),
      state_text := some "Deteniendo LiteLLM", state := some "running" }
  container_stop LITELLM_CONTAINER
  modifyWorld fun w => { w with pipeDisruptive := true }
  add_step "stop_litellm" true "litellm stopped"
    (some switch_id) (some "running") (some "LiteLLM detenido") none none
  update_switch_state switch_id
    { noUpdate with
      current_step := some (some "stop_models"),
      state_text := some "Deteniendo contenedores de modelo", state := some "running" }
  stop_all_model_containers
  add_step "stop_models" true "all vllm containers stopped"
    (some switch_id) (some "running") (some "Contenedores de modelo detenidos") none none
  update_switch_state switch_id
    { noUpdate with
      current_step := some (some "start_target"),
      state_text := some ("Iniciando " ++ target_container), state := some "running" }
  container_start target_container
  add_step "start_target" true ("started " ++ target_container)
    (some switch_id) (some "running") (some (target_container ++ " iniciado")) none none
  update_switch_state switch_id
    { noUpdate with
      current_step := some (some "wait_target"),
      state_text := some ("Esperando health de " ++ target_container), state := some "running" }
  wait_container_ready target_container HEALTH_TIMEOUT_SECONDS
  add_step "wait_target" true (target_container ++ " is ready")
    (some switch_id) (some "running") (some (target_container ++ " listo")) none none
  ensure_active_config model
  add_step "activate_config" true ("active config set to " ++ model)
    (some switch_id) (some "running")
    (some ("Configuracion activa actualizada a " ++ model)) none none
  update_switch_state switch_id
    { noUpdate with
      current_step := some (some "start_litellm"),
      state_text := some "Iniciando LiteLLM", state := some "running" }
  container_start LITELLM_CONTAINER
  add_step "start_litellm" true "litellm started"
    (some switch_id) (some "running") (some "LiteLLM iniciado") none none
  let litellm_model_name ←
    match modelMeta? model with
    | some meta => pure meta.litellm_model
    | none => throwErr (PyErr.otherExc ("KeyError: " ++ model))
  update_switch_state switch_id
    { noUpdate with
      current_step := some (some "verify_litellm"),
      state_text := some ("Verificando modelo " ++ litellm_model_name ++ " en LiteLLM"),
      state := some "running" }
  wait_litellm_model litellm_model_name LITELLM_VERIFY_TIMEOUT_SECONDS
  add_step "verify_litellm" true ("litellm exposes model " ++ litellm_model_name)
    (some switch_id) (some "success") (some "Modelo disponible") (some true) (some none)
  set_runtime_state none true
  set_active_mode MODE_LLM
  clear_comfy_lease
  let w ← getWorld
  update_switch_state switch_id
    { noUpdate with
      state := some "success", from_model := some from_model,
      to_model := some model, current_step := some (some "complete"),
      state_text := some "Modelo disponible", ready := some true, error := some none,
      steps := some w.pipeSteps }
  let w2 ← getWorld
  switch_response switch_id "success" from_model model w2.pipeSteps started none

/-- The `try` body of `run_switch_pipeline` (up to its `return`s). -/
def llm_pipeline_body (model : String) (switch_id : Nat) (from_model : Option String)
    (running_before : List String) (started : Int) : M SwitchResponse := do
  let target_container ←
    match modelMeta? model with
    | some meta => pure meta.container
    | none => throwErr (PyErr.otherExc ("KeyError: " ++ model))
  ensure_container_created target_container "prod-bootstrap-models"
  add_step "preflight" true ("target container exists: " ++ target_container)
    (some switch_id) (some "running") (some ("Preflight OK para " ++ target_container)) none none
  update_switch_state switch_id
    { noUpdate with
      current_step := some (some "stop_comfy"),
      state_text := some "Deteniendo ComfyUI", state := some "running" }
  container_stop COMFY_CONTAINER
  add_step "stop_comfy" true "comfyui stopped"
    (some switch_id) (some "running") (some "ComfyUI detenido") none none
  if llm_noop_condition from_model running_before model then
    llm_noop_branch model switch_id from_model started
  else
    llm_main_branch model target_container switch_id from_model started

/-- The `except HTTPException` handler of `run_switch_pipeline`. -/
def llm_http_handler (code : Nat) (detail : String) (raise_http_errors : Bool)
    (model : String) (switch_id : Nat) (from_model : Option String)
    (started : Int) : M SwitchResponse := do
  if raise_http_errors then do
    let w ← getWorld
    update_switch_state switch_id
      { noUpdate with
        state := some "failed", from_model := some from_model,
        to_model := some model, current_step := some (some "switch_error"),
        state_text := some ("Error: " ++ detail), ready := some false,
        error := some (some detail), steps := some w.pipeSteps }
    throwErr (PyErr.httpExc code detail)
  else do
    let error_detail := detail
    add_step "switch_error" false error_detail
      (some switch_id) (some "failed") (some "Error en cambio de modelo") (some false)
      (some (some error_detail))
    set_runtime_state (some error_detail) false
    let w ← getWorld
    update_switch_state switch_id
      { noUpdate with
        state := some "failed", from_model := some from_model,
        to_model := some model, current_step := some (some "complete"),
        state_text := some "Error en cambio de modelo", ready := some false,
        error := some (some error_detail), steps := some w.pipeSteps }
    let w2 ← getWorld
    switch_response switch_id "failed" from_model model w2.pipeSteps started
      (some error_detail)

/-- The full-rollback block of `run_switch_pipeline` (the `try` inside the
`except Exception` handler, for a previous model `fm`). -/
def llm_rollback_block (fm : String) (switch_id : Nat)
    (previous_config previous_model_value : Option String) : M Unit := do
  update_switch_state switch_id
    { noUpdate with
      current_step := some (some "rollback_restore_config"),
      state_text := some "Rollback: restaurando configuracion activa", state := some "running" }
  restore_active_files previous_config previous_model_value
  add_step "rollback_restore_config" true "active config restored"
    (some switch_id) (some "running") (some "Rollback: configuracion restaurada") none none
  update_switch_state switch_id
    { noUpdate with
      current_step := some (some "rollback_stop_models"),
      state_text := some "Rollback: deteniendo modelos", state := some "running" }
  stop_all_model_containers
  add_step "rollback_stop_models" true "all vllm containers stopped"
    (some switch_id) (some "running") (some "Rollback: modelos detenidos") none none
  let rollback_container ←
    match modelMeta? fm with
    | some meta => pure meta.container
    | none => throwErr (PyErr.otherExc ("KeyError: " ++ fm))
  let info ← container_json rollback_container
  if info = none then
    throwErr (PyErr.runtimeError ("rollback container missing: " ++ rollback_container))
  update_switch_state switch_id
    { noUpdate with
      current_step := some (some "rollback_start_previous"),
      state_text := some ("Rollback: iniciando " ++ rollback_container), state := some "running" }
  container_start rollback_container
  wait_container_ready rollback_container HEALTH_TIMEOUT_SECONDS
  add_step "rollback_start_previous" true ("restored " ++ fm)
    (some switch_id) (some "running") (some ("Rollback: " ++ fm ++ " restaurado")) none none
  update_switch_state switch_id
    { noUpdate with
      current_step := some (some "rollback_litellm"),
      state_text := some "Rollback: iniciando LiteLLM", state := some "running" }
  container_start LITELLM_CONTAINER
  let rollback_litellm_model ←
    match modelMeta? fm with
    | some meta => pure meta.litellm_model
    | none => throwErr (PyErr.otherExc ("KeyError: " ++ fm))
  wait_litellm_model rollback_litellm_model LITELLM_VERIFY_TIMEOUT_SECONDS
  add_step "rollback_litellm" true "litellm restored"
    (some switch_id) (some "running") (some "Rollback completado") none none
  set_active_mode MODE_LLM
  clear_comfy_lease

/-- The best-effort restore block of `run_switch_pipeline` (the `elif
disruptive_started` branch of the `except Exception` handler). -/
def llm_best_effort_restore (switch_id : Nat)
    (previous_config previous_model_value : Option String) : M Unit := do
  attempt
    (do
      update_switch_state switch_id
        { noUpdate with
          current_step := some (some "restore_config"),
          state_text := some "Restaurando configuracion activa", state := some "running" }
      restore_active_files previous_config previous_model_value
      add_step "restore_config" true "active config restored"
        (some switch_id) (some "running") (some "Configuracion activa restaurada") none none)
    (fun e =>
      add_step "restore_config" false (excMsg e)
        (some switch_id) (some "running") (some "Error restaurando configuracion") none
        (some (some (excMsg e))))
  attempt
    (do
      update_switch_state switch_id
        { noUpdate with
          current_step := some (some "restore_litellm"),
          state_text := some "Reiniciando LiteLLM", state := some "running" }
      container_start LITELLM_CONTAINER
      add_step "restore_litellm" true "litellm restarted"
        (some switch_id) (some "running") (some "LiteLLM reiniciado") none none
      set_active_mode MODE_LLM
      clear_comfy_lease)
    (fun e =>
      add_step "restore_litellm" false (excMsg e)
        (some switch_id) (some "failed") (some "Error al reiniciar LiteLLM") none
        (some (some (excMsg e))))

/-- The `except Exception` handler of `run_switch_pipeline`. -/
def llm_exc_handler (msg model : String) (switch_id : Nat) (from_model : Option String)
    (previous_config previous_model_value : Option String)
    (started : Int) : M SwitchResponse := do
  let error_detail := msg
  add_step "switch_error" false error_detail
    (some switch_id) (some "running") (some "Error detectado, iniciando rollback") (some false)
    (some (some error_detail))
  let w ← getWorld
  let disruptive_started := w.pipeDisruptive
  let statusAndError ←
    if llm_rollback_condition disruptive_started from_model model then
      match from_model with
      | some fm =>
        attempt
          (do
            llm_rollback_block fm switch_id previous_config previous_model_value
            pure ("rolled_back", error_detail))
          (fun rbExc => do
            let rollback_error := excMsg rbExc
            add_step "rollback_error" false rollback_error
              (some switch_id) (some "failed") (some "Error durante rollback") (some false)
              (some (some rollback_error))
            pure ("failed", error_detail ++ "; rollback failed: " ++ rollback_error))
      | none => pure ("failed", error_detail)
    else if disruptive_started then do
      llm_best_effort_restore switch_id previous_config previous_model_value
      pure ("failed", error_detail)
    else pure ("failed", error_detail)
  let final_status := statusAndError.1
  let error_detail := statusAndError.2
  set_runtime_state (some error_detail) false
  let final_text :=
    if final_status = "failed" then "Error en cambio de modelo"
    else "Rollback completado; modelo objetivo no disponible"
  let w2 ← getWorld
  update_switch_state switch_id
    { noUpdate with
      state := some final_status, from_model := some from_model,
      to_model := some model, current_step := some (some "complete"),
      state_text := some final_text, ready := some false,
      error := some (some error_detail), steps := some w2.pipeSteps }
  let w3 ← getWorld
  switch_response switch_id final_status from_model model w3.pipeSteps started
    (some error_detail)

def run_switch_pipeline (model : String) (switch_id : Nat)
    (raise_http_errors : Bool) : M SwitchResponse := do
  let started ← monoTime
  modifyWorld fun w => { w with pipeSteps := [], pipeDisruptive := false }
  let previous_config ← read_optional_text PathId.activeConfig
  let previous_model_value ← read_optional_text PathId.activeModel
  let before ← status_payload
  let running_before := running_models_from_status before
  let from_model : Option String := pipeline_from_model running_before before.active_model
  update_switch_state switch_id
    { noUpdate with
      state := some "running", from_model := some from_model,
      to_model := some model, current_step := some (some "preflight"),
      state_text := some ("Iniciando cambio a " ++ model), ready := some false,
      error := some none, steps := some [] }
  attempt (llm_pipeline_body model switch_id from_model running_before started)
    (fun e =>
      match e with
      | PyErr.httpExc code detail =>
        llm_http_handler code detail raise_http_errors model switch_id from_model started
      | PyErr.runtimeError m =>
        llm_exc_handler m model switch_id from_model previous_config previous_model_value started
      | PyErr.otherExc m =>
        llm_exc_handler m model switch_id from_model previous_config previous_model_value started)

/-! ### Mode switch pipeline (`run_mode_switch_pipeline`) -/

/-- Body of `POST /mode/switch`. -/
structure ModeSwitchRequest where
  mode : String
  model : Option String
  ttl_minutes : Option Int
  wait_for_ready : Bool
deriving DecidableEq, Repr

def default_llm_model : String :=
  if (modelMeta? DEFAULT_MODEL).isSome then DEFAULT_MODEL
  else
    match MODELS with
    | m :: _ => m.id
    | [] => ""

def resolve_llm_model (requested_model : Option String) : M String := do
  match requested_model with
  | some requested => do
    let candidate := pyStrip requested
    if (modelMeta? candidate).isNone then throwErr (PyErr.httpExc 400 "unknown model")
    pure candidate
  | none => do
    let current ← active_model
    match current with
    | some c => if (modelMeta? c).isSome ∧ c ≠ "" then pure c else pure default_llm_model
    | none => pure default_llm_model

/-- The guard of the lease-renewal short-circuit of the comfy pipeline:
`active_mode() == MODE_COMFY and comfy_running and len(running_before) == 0`. -/
def comfy_renewal_condition (mode_now : String) (comfy_running : Bool)
    (running_before : List String) : Bool :=
  mode_now == MODE_COMFY && comfy_running && running_before.length == 0

/-- The lease-renewal short-circuit branch of the comfy pipeline. -/
def comfy_renewal_branch (ttl_minutes : Int) (switch_id : Nat) (from_model : Option String)
    (started : Int) : M SwitchResponse := do
  let lease_until ← set_comfy_lease ttl_minutes
  set_active_mode MODE_COMFY
  add_step "renew_lease" true ("comfy lease renewed until " ++ toString lease_until)
    (some switch_id) (some "success") (some "Lease de ComfyUI renovado") (some true) (some none)
  set_runtime_state none true
  let w ← getWorld
  update_switch_state switch_id
    { noUpdate with
      state := some "success", from_model := some from_model,
      to_model := some ("mode:" ++ MODE_COMFY), current_step := some (some "complete"),
      state_text := some "ComfyUI disponible", ready := some true, error := some none,
      steps := some w.pipeSteps }
  let w2 ← getWorld
  switch_response switch_id "success" from_model ("mode:" ++ MODE_COMFY) w2.pipeSteps
    started none

/-- The `try` body of the comfy branch of `run_mode_switch_pipeline`. -/
def comfy_pipeline_body (ttl_minutes : Int) (switch_id : Nat) (from_model : Option String)
    (running_before : List String) (comfy_before : ContState)
    (started : Int) : M SwitchResponse := do
  ensure_container_created COMFY_CONTAINER "prod-bootstrap-models"
  add_step "preflight" true ("target container exists: " ++ COMFY_CONTAINER)
    (some switch_id) (some "running") (some ("Preflight OK para " ++ COMFY_CONTAINER)) none none
  let comfy_running := comfy_before.status == some "running"
  let mode_now ← active_mode
  if comfy_renewal_condition mode_now comfy_running running_before then
    comfy_renewal_branch ttl_minutes switch_id from_model started
  else do
    update_switch_state switch_id
      { noUpdate with
        current_step := some (some "stop_litellm"),
        state_text := some "Deteniendo LiteLLM", state := some "running" }
    container_stop LITELLM_CONTAINER
    modifyWorld fun w => { w with pipeDisruptive := true }
    add_step "stop_litellm" true "litellm stopped"
      (some switch_id) (some "running") (some "LiteLLM detenido") none none
    update_switch_state switch_id
      { noUpdate with
        current_step := some (some "stop_models"),
        state_text := some "Deteniendo contenedores de modelo", state := some "running" }
    stop_all_model_containers
    add_step "stop_models" true "all vllm containers stopped"
      (some switch_id) (some "running") (some "Contenedores de modelo detenidos") none none
    update_switch_state switch_id
      { noUpdate with
        current_step := some (some "start_comfy"),
        state_text := some ("Iniciando " ++ COMFY_CONTAINER), state := some "running" }
    container_start COMFY_CONTAINER
    add_step "start_comfy" true ("started " ++ COMFY_CONTAINER)
      (some switch_id) (some "running") (some (COMFY_CONTAINER ++ " iniciado")) none none
    update_switch_state switch_id
      { noUpdate with
        current_step := some (some "wait_comfy"),
        state_text := some ("Esperando health de " ++ COMFY_CONTAINER), state := some "running" }
    wait_container_ready COMFY_CONTAINER HEALTH_TIMEOUT_SECONDS
    add_step "wait_comfy" true (COMFY_CONTAINER ++ " is ready")
      (some switch_id) (some "running") (some (COMFY_CONTAINER ++ " listo")) none none
    set_active_mode MODE_COMFY
    let lease_until ← set_comfy_lease ttl_minutes
    add_step "activate_mode" true ("active mode set to comfy until " ++ toString lease_until)
      (some switch_id) (some "success")
      (some ("ComfyUI activo (" ++ toString ttl_minutes ++ " min)")) (some true) (some none)
    set_runtime_state none true
    let w ← getWorld
    update_switch_state switch_id
      { noUpdate with
        state := some "success", from_model := some from_model,
        to_model := some ("mode:" ++ MODE_COMFY), current_step := some (some "complete"),
        state_text := some ("ComfyUI activo (" ++ toString ttl_minutes ++ " min)"),
        ready := some true, error := some none, steps := some w.pipeSteps }
    let w2 ← getWorld
    switch_response switch_id "success" from_model ("mode:" ++ MODE_COMFY) w2.pipeSteps
      started none

/-- The `except HTTPException` handler of the comfy branch. -/
def comfy_http_handler (code : Nat) (detail : String) (raise_http_errors : Bool)
    (switch_id : Nat) (from_model : Option String) (started : Int) : M SwitchResponse := do
  if raise_http_errors then do
    let w ← getWorld
    update_switch_state switch_id
      { noUpdate with
        state := some "failed", from_model := some from_model,
        to_model := some ("mode:" ++ MODE_COMFY), current_step := some (some "switch_error"),
        state_text := some ("Error: " ++ detail), ready := some false,
        error := some (some detail), steps := some w.pipeSteps }
    throwErr (PyErr.httpExc code detail)
  else do
    let error_detail := detail
    add_step "switch_error" false error_detail
      (some switch_id) (some "failed") (some "Error en cambio de modo") (some false)
      (some (some error_detail))
    set_runtime_state (some error_detail) false
    let w ← getWorld
    update_switch_state switch_id
      { noUpdate with
        state := some "failed", from_model := some from_model,
        to_model := some ("mode:" ++ MODE_COMFY), current_step := some (some "complete"),
        state_text := some "Error en cambio de modo", ready := some false,
        error := some (some error_detail), steps := some w.pipeSteps }
    let w2 ← getWorld
    switch_response switch_id "failed" from_model ("mode:" ++ MODE_COMFY) w2.pipeSteps
      started (some error_detail)

/-- The rollback block of the comfy branch (the `try` inside its
`except Exception` handler, for rollback model `rollback_model`). -/
def comfy_rollback_block (rollback_model : String) (switch_id : Nat) : M Unit := do
  update_switch_state switch_id
    { noUpdate with
      current_step := some (some "rollback_stop_comfy"),
      state_text := some "Rollback: deteniendo ComfyUI", state := some "running" }
  container_stop COMFY_CONTAINER
  add_step "rollback_stop_comfy" true "comfyui stopped"
    (some switch_id) (some "running") (some "Rollback: ComfyUI detenido") none none
  update_switch_state switch_id
    { noUpdate with
      current_step := some (some "rollback_stop_models"),
      state_text := some "Rollback: deteniendo modelos", state := some "running" }
  stop_all_model_containers
  add_step "rollback_stop_models" true "all vllm containers stopped"
    (some switch_id) (some "running") (some "Rollback: modelos detenidos") none none
  let rollback_container ←
    match modelMeta? rollback_model with
    | some meta => pure meta.container
    | none => throwErr (PyErr.otherExc ("KeyError: " ++ rollback_model))
  let info ← container_json rollback_container
  if info = none then
    throwErr (PyErr.runtimeError ("rollback container missing: " ++ rollback_container))
  update_switch_state switch_id
    { noUpdate with
      current_step := some (some "rollback_start_previous"),
      state_text := some ("Rollback: iniciando " ++ rollback_container), state := some "running" }
  container_start rollback_container
  wait_container_ready rollback_container HEALTH_TIMEOUT_SECONDS
  add_step "rollback_start_previous" true ("restored " ++ rollback_model)
    (some switch_id) (some "running")
    (some ("Rollback: " ++ rollback_model ++ " restaurado")) none none
  ensure_active_config rollback_model
  add_step "rollback_restore_config" true ("active config set to " ++ rollback_model)
    (some switch_id) (some "running") (some "Rollback: configuracion restaurada") none none
  update_switch_state switch_id
    { noUpdate with
      current_step := some (some "rollback_litellm"),
      state_text := some "Rollback: iniciando LiteLLM", state := some "running" }
  container_start LITELLM_CONTAINER
  let rollback_litellm_model ←
    match modelMeta? rollback_model with
    | some meta => pure meta.litellm_model
    | none => throwErr (PyErr.otherExc ("KeyError: " ++ rollback_model))
  wait_litellm_model rollback_litellm_model LITELLM_VERIFY_TIMEOUT_SECONDS
  add_step "rollback_litellm" true "litellm restored"
    (some switch_id) (some "running") (some "Rollback completado") none none
  set_active_mode MODE_LLM
  clear_comfy_lease

/-- The `except Exception` handler of the comfy branch. -/
def comfy_exc_handler (msg : String) (switch_id : Nat) (from_model : Option String)
    (started : Int) : M SwitchResponse := do
  let error_detail := msg
  add_step "switch_error" false error_detail
    (some switch_id) (some "running") (some "Error detectado, iniciando rollback") (some false)
    (some (some error_detail))
  let w ← getWorld
  let disruptive_started := w.pipeDisruptive
  let statusAndError ←
    if disruptive_started then do
      let rollback_model :=
        match from_model with
        | some fm => if (modelMeta? fm).isSome then fm else default_llm_model
        | none => default_llm_model
      attempt
        (do
          comfy_rollback_block rollback_model switch_id
          pure ("rolled_back", error_detail))
        (fun rbExc => do
          let rollback_error := excMsg rbExc
          add_step "rollback_error" false rollback_error
            (some switch_id) (some "failed") (some "Error durante rollback") (some false)
            (some (some rollback_error))
          pure ("failed", error_detail ++ "; rollback failed: " ++ rollback_error))
    else pure ("failed", error_detail)
  let final_status := statusAndError.1
  let error_detail := statusAndError.2
  set_runtime_state (some error_detail) false
  let final_text :=
    if final_status = "failed" then "Error en cambio de modo"
    else "Rollback completado; modo comfy no disponible"
  let w2 ← getWorld
  update_switch_state switch_id
    { noUpdate with
      state := some final_status, from_model := some from_model,
      to_model := some ("mode:" ++ MODE_COMFY), current_step := some (some "complete"),
      state_text := some final_text, ready := some false,
      error := some (some error_detail), steps := some w2.pipeSteps }
  let w3 ← getWorld
  switch_response switch_id final_status from_model ("mode:" ++ MODE_COMFY) w3.pipeSteps
    started (some error_detail)

/-- `run_mode_switch_pipeline`; the validation raises `HTTPException`
outside the `try`, so those errors propagate even when
`raise_http_errors` is false, exactly as in the source. -/
def run_mode_switch_pipeline (req : ModeSwitchRequest) (switch_id : Nat)
    (raise_http_errors : Bool) (source : String) : M SwitchResponse := do
  let mode := pyLower (pyStrip req.mode)
  if mode ∉ VALID_MODES then throwErr (PyErr.httpExc 400 "unknown mode")
  if mode = MODE_LLM then do
    if req.ttl_minutes ≠ none then
      throwErr (PyErr.httpExc 400 "ttl_minutes is only valid for mode=comfy")
    let target_model ← resolve_llm_model req.model
    update_switch_state switch_id
      { noUpdate with
        state_text := some ("Cambiando a modo llm (" ++ target_model ++ ")"),
        to_model := some target_model, current_step := some (some "mode_llm") }
    run_switch_pipeline target_model switch_id raise_http_errors
  else do
    match req.model with
    | some s =>
      if pyStrip s ≠ "" then throwErr (PyErr.httpExc 400 "model is only valid for mode=llm")
    | none => pure ()
    let ttl_minutes ← normalize_comfy_ttl req.ttl_minutes
    let started ← monoTime
    modifyWorld fun w => { w with pipeSteps := [], pipeDisruptive := false }
    let before ← status_payload
    let running_before := running_models_from_status before
    let from_model : Option String := pipeline_from_model running_before before.active_model
    update_switch_state switch_id
      { noUpdate with
        state := some "running", from_model := some from_model,
        to_model := some ("mode:" ++ MODE_COMFY), current_step := some (some "preflight"),
        state_text := some ("Iniciando modo comfy (" ++ source ++ ")"), ready := some false,
        error := some none, steps := some [] }
    attempt
      (comfy_pipeline_body ttl_minutes switch_id from_model running_before before.comfyui
        started)
      (fun e =>
        match e with
        | PyErr.httpExc code detail =>
          comfy_http_handler code detail raise_http_errors switch_id from_model started
        | PyErr.runtimeError m => comfy_exc_handler m switch_id from_model started
        | PyErr.otherExc m => comfy_exc_handler m switch_id from_model started)

/-! ### HTTP endpoints -/

def lock_acquire : M Bool := fun w =>
  if w.switchLocked then (Except.ok false, w)
  else (Except.ok true, { w with switchLocked := true })

def lock_release : M Unit := modifyWorld fun w => { w with switchLocked := false }

/-- Result of `POST /mode/switch`: a terminal payload, a `202 accepted`
acceptance, or a `202 in_progress` acceptance. -/
inductive ModeSwitchResult
  | done (r : SwitchResponse)
  | accepted (switch_id : Nat) (to_model : String) (state_text : String)
  | inProgress (switch_id : Option Nat) (to_model : String) (state_text : String)
deriving DecidableEq, Repr

/-- `POST /mode/switch`.  In the `accepted` branch the source spawns a
worker thread running `run_mode_switch_pipeline_async`; the endpoint
transition itself only creates the queued job and returns, which is what
is modelled here. -/
def mode_switch (req : ModeSwitchRequest) : M ModeSwitchResult := do
  let mode := pyLower (pyStrip req.mode)
  if mode ∉ VALID_MODES then throwErr (PyErr.httpExc 400 "unknown mode")
  let target_model : Option String ←
    if mode = MODE_LLM then do
      if req.ttl_minutes ≠ none then
        throwErr (PyErr.httpExc 400 "ttl_minutes is only valid for mode=comfy")
      let t ← resolve_llm_model req.model
      pure (some t)
    else do
      match req.model with
      | some s =>
        if pyStrip s ≠ "" then throwErr (PyErr.httpExc 400 "model is only valid for mode=llm")
      | none => pure ()
      let _ ← normalize_comfy_ttl req.ttl_minutes
      pure none
  let to_model :=
    match target_model with
    | some m => m
    | none => "mode:" ++ mode
  if req.wait_for_ready then do
    let acquired ← lock_acquire
    if ¬ acquired then throwErr (PyErr.httpExc 409 "switch_in_progress")
    let switch_id ← create_switch_state to_model "running"
      ("Iniciando cambio de modo a " ++ mode) none (some "accepted")
    attempt
      (do
        let r ← run_mode_switch_pipeline req switch_id true "api"
        lock_release
        pure (ModeSwitchResult.done r))
      (fun e => do
        lock_release
        throwErr e)
  else do
    let acquired ← lock_acquire
    if ¬ acquired then do
      let current ← current_switch_snapshot
      match current with
      | some j => pure (ModeSwitchResult.inProgress (some j.id) j.to_model j.state_text)
      | none => pure (ModeSwitchResult.inProgress none to_model "Cambio de modo en curso")
    else do
      let switch_id ← create_switch_state to_model "queued"
        ("Cambio de modo aceptado a " ++ mode) none (some "queued")
      pure (ModeSwitchResult.accepted switch_id to_model ("Cambio de modo aceptado a " ++ mode))

/-- The decision logic of `GET /healthz/ready` over the status payload. -/
def ready_decision (payload : Status) : Except PyErr (String × String) :=
  let running := running_models_from_status payload
  let active := payload.active_model
  if payload.active_mode ≠ MODE_LLM then
    Except.error (PyErr.httpExc 503 "llm mode is not active")
  else if running.length ≠ 1 then
    Except.error (PyErr.httpExc 503 "expected exactly one running model")
  else
    match active with
    | none => Except.error (PyErr.httpExc 503 "no active model configured")
    | some active =>
      if active = "" then Except.error (PyErr.httpExc 503 "no active model configured")
      else if running.headD "" ≠ active then
        Except.error (PyErr.httpExc 503 "active model does not match running model")
      else Except.ok ("ready", active)

/-- `GET /healthz/ready`: returns `(status, active_model)` on success,
raises `HTTPException 503` otherwise. -/
def ready : M (String × String) := do
  let payload ← status_payload
  match ready_decision payload with
  | Except.ok r => pure r
  | Except.error e => throwErr e

/-- `POST /mode/release`. -/
def mode_release : M SwitchResponse := do
  let acquired ← lock_acquire
  if ¬ acquired then throwErr (PyErr.httpExc 409 "switch_in_progress")
  let target_model := default_llm_model
  let switch_id ← create_switch_state target_model "running"
    ("Preemption a modo llm (" ++ target_model ++ ")") none (some "accepted")
  attempt
    (do
      let r ← run_mode_switch_pipeline
        { mode := MODE_LLM, model := some target_model, ttl_minutes := none,
          wait_for_ready := true } switch_id true "manual_release"
      lock_release
      pure r)
    (fun e => do
      lock_release
      throwErr e)

/-- `POST /stop`. -/
def stop : M Status := do
  stop_all_model_containers
  container_stop COMFY_CONTAINER
  set_active_mode MODE_LLM
  clear_comfy_lease
  status_payload

/-! ### Concrete environments used by the theorems -/

/-- Split a character list on slashes. -/
def splitSlashAux : List Char → List Char → List (List Char)
  | [], acc => [acc.reverse]
  | c :: cs, acc =>
    if c = '/' then acc.reverse :: splitSlashAux cs []
    else splitSlashAux cs (c :: acc)

/-- Container name of a docker-proxy request path
(`/containers/NAME/json` and friends). -/
def containerOf (path : String) : String := ⟨(splitSlashAux path.data []).getD 2 []⟩

/-- Final component of a docker-proxy request path (`json`, `start`, `stop`). -/
def pathKind (path : String) : String := ⟨(splitSlashAux path.data []).getD 3 []⟩

/-- A docker environment built from three per-container response maps. -/
def envFor (inspectR startR stopR : String → DResp) : String → String → DResp :=
  fun _ path =>
    let kind := pathKind path
    if kind == "json" then inspectR (containerOf path)
    else if kind == "start" then startR (containerOf path)
    else if kind == "stop" then stopR (containerOf path)
    else DResp.exn "unexpected request"

/-- An inventory response exposing every catalogue gateway-model name. -/
def llmAll : Nat → LResp := fun _ =>
  LResp.resp 200 (some (LJson.dict (MODELS.map (fun m => LItem.item (some m.litellm_model)))))

def okStart : String → DResp := fun _ => DResp.resp 204 none ""
def okStop : String → DResp := fun _ => DResp.resp 204 none ""

/-- Inspect body reported by `inspectBy` for a container whose running
flag is `b`. -/
def inspInfo (b : Bool) : ContainerInfo :=
  { status := some (if b then "running" else "exited"), health := some "healthy" }

/-- Inspect response: the container exists, reports `running`/`exited`
according to `run`, and reports a healthy probe so that readiness waits
succeed. -/
def inspectBy (run : String → Bool) : String → DResp := fun name =>
  DResp.resp 200 (some (inspInfo (run name))) ""

def baseWorld : World :=
  { activeConfigFile := none, activeModelFile := none, activeModeFile := none,
    leaseFile := none,
    templates := MODELS.map (fun m => (m.template, "config for " ++ m.id)),
    now := 1000,
    docker := fun _ _ => DResp.exn "no docker",
    dockerLog := [],
    llm := fun _ => LResp.exn,
    llmPolls := 0,
    lastError := none, lastSwitchAt := none, switchIdSeq := 0, currentSwitch := none,
    switchLocked := false, pipeSteps := [], pipeDisruptive := false }

def modelIds : List String := MODELS.map (fun m => m.id)

def nthModel (t : Fin 4) : String := modelIds.getD t.val ""

/-- Which model containers report `running` for the given flags
(`b0..b3` in catalogue order). -/
def runBy (b0 b1 b2 b3 : Bool) : String → Bool := fun name =>
  if name == "vllm-fast" then b0
  else if name == "vllm-quality" then b1
  else if name == "vllm-deepseek" then b2
  else if name == "vllm-qwen32b" then b3
  else false

/-- The model ids reported running for the given flags, in catalogue
order (mirrors how `status_payload` accumulates `running_models`). -/
def runningOf (b0 b1 b2 b3 : Bool) : List String :=
  (if b0 then ["qwen-fast"] else []) ++ (if b1 then ["qwen-quality"] else []) ++
  (if b2 then ["deepseek"] else []) ++ (if b3 then ["qwen-max"] else [])

/-- World family for situations an LLM switch can start from: persisted
mode, per-model-container running status, and active-model file; every
orchestration call succeeds, probes are healthy, and the gateway exposes
every model. -/
def mkSituation (comfyMode : Bool) (b0 b1 b2 b3 : Bool) (am : Option String) : World :=
  { baseWorld with
    activeModeFile := some (if comfyMode then "comfy\n" else "llm\n"),
    activeModelFile := am,
    activeConfigFile := some "previous config",
    leaseFile := if comfyMode then some "2000\n" else none,
    docker := envFor (inspectBy (runBy b0 b1 b2 b3)) okStart okStop,
    llm := llmAll }

/-- Run an LLM switch the way `POST /switch` does in the async worker:
create the job record, then drive the pipeline. -/
def runLlmSwitch (model : String) (w : World) : Except PyErr SwitchResponse × World :=
  (do
    let switch_id ← create_switch_state model "running" ("Iniciando cambio a " ++ model)
      none (some "accepted")
    run_switch_pipeline model switch_id false) w

def respSteps (r : Except PyErr SwitchResponse × World) : List String :=
  match r.1 with
  | Except.ok resp => resp.steps.map (fun s => s.step)
  | Except.error _ => []

def respStatus (r : Except PyErr SwitchResponse × World) : Option String :=
  match r.1 with
  | Except.ok resp => some resp.status
  | Except.error _ => none

def respError (r : Except PyErr SwitchResponse × World) : Option String :=
  match r.1 with
  | Except.ok resp => resp.error
  | Except.error _ => none

def finalWorld (r : Except PyErr SwitchResponse × World) : World := r.2

/-! ### Pure mirrors of the defaulted reads (used to state payload facts) -/

/-- Pure value of `active_mode` as a function of the mode-file content. -/
def read_mode_of (raw : Option String) : String :=
  match raw with
  | none => MODE_LLM
  | some raw =>
    let mode := pyLower (pyStrip raw)
    if mode ∈ VALID_MODES then mode else MODE_LLM

/-- Pure value of `active_model` as a function of the model-file content. -/
def active_model_of (value : Option String) : Option String :=
  match value with
  | none => none
  | some value =>
    let current := pyStrip value
    if (modelMeta? current).isSome then some current else none

/-- Pure value of `comfy_lease_status` as a function of the lease-file
content and the clock. -/
def lease_status_of (raw : Option String) (now : Int) : LeaseStatus :=
  match raw with
  | none => { expires_at := none, remaining_seconds := none, expired := false }
  | some raw =>
    match parse_utc_iso raw with
    | none => { expires_at := none, remaining_seconds := none, expired := false }
    | some lease_until =>
      { expires_at := some (toString lease_until),
        remaining_seconds := some (max (lease_until - now) 0),
        expired := decide (lease_until - now ≤ 0) }

/-- Pure value of `current_switch_snapshot` as a function of the job slot
and the clock. -/
def snapshot_of (cur : Option Job) (now : Int) : Option Job :=
  match cur with
  | none => none
  | some job =>
    some (if job.finished_at = none then { job with duration_ms := elapsedMs job now }
          else job)

/-- Snapshot of a container under `inspectBy`. -/
def snapCont (b : Bool) : ContState :=
  { exists_ := true, status := some (if b then "running" else "exited"),
    health := some "healthy", error := none }

/-- The running-model ids under `inspectBy (runBy ...)`-style environments,
as a function of the per-container flags. -/
def runningList (r : String → Bool) : List String :=
  (if r "vllm-fast" then ["qwen-fast"] else []) ++
    ((if r "vllm-quality" then ["qwen-quality"] else []) ++
      ((if r "vllm-deepseek" then ["deepseek"] else []) ++
        (if r "vllm-qwen32b" then ["qwen-max"] else [])))

/-- The status payload produced on a world whose docker environment is
`envFor (inspectBy r) okStart okStop`. -/
def famStatus (r : String → Bool) (w : World) : Status :=
  { running_models := runningList r,
    active_model := active_model_of w.activeModelFile,
    active_mode := read_mode_of w.activeModeFile,
    mode_default := MODE_LLM,
    lease := lease_status_of w.leaseFile w.now,
    active_config_path := if w.activeConfigFile.isSome then some "active.yml" else none,
    active_mode_path := if w.activeModeFile.isSome then some "active.mode" else none,
    active_lease_path := if w.leaseFile.isSome then some "active.mode.lease_until" else none,
    containers :=
      [("qwen-fast", snapCont (r "vllm-fast")), ("qwen-quality", snapCont (r "vllm-quality")),
        ("deepseek", snapCont (r "vllm-deepseek")), ("qwen-max", snapCont (r "vllm-qwen32b"))],
    litellm := snapCont (r "litellm"),
    comfyui := snapCont (r "comfyui"),
    switch_in_progress := w.switchLocked,
    last_error := w.lastError,
    last_switch_at := w.lastSwitchAt,
    switch := snapshot_of w.currentSwitch w.now }

/-! ### Rewrite toolkit: applying monadic programs to worlds -/

theorem bind_apply {α β : Type} (x : M α) (f : α → M β) (w : World) :
    (x >>= f) w = match x w with
      | (Except.ok a, w') => f a w'
      | (Except.error e, w') => (Except.error e, w') := rfl

theorem bind_ok {α β : Type} {x : M α} {a : α} {w w' : World} (f : α → M β)
    (h : x w = (Except.ok a, w')) : (x >>= f) w = f a w' := by
  rw [bind_apply, h]

theorem bind_err {α β : Type} {x : M α} {e : PyErr} {w w' : World} (f : α → M β)
    (h : x w = (Except.error e, w')) : (x >>= f) w = (Except.error e, w') := by
  rw [bind_apply, h]

theorem pure_apply {α : Type} (a : α) (w : World) : (pure a : M α) w = (Except.ok a, w) := rfl

theorem throwErr_apply {α : Type} (e : PyErr) (w : World) :
    (throwErr e : M α) w = (Except.error e, w) := rfl

theorem attempt_ok {α : Type} {body : M α} {a : α} {w w' : World} (h : PyErr → M α)
    (hb : body w = (Except.ok a, w')) : attempt body h w = (Except.ok a, w') := by
  simp [attempt, hb]

theorem attempt_err {α : Type} {body : M α} {e : PyErr} {w w' : World} (h : PyErr → M α)
    (hb : body w = (Except.error e, w')) : attempt body h w = h e w' := by
  simp [attempt, hb]

theorem getWorld_apply (w : World) : getWorld w = (Except.ok w, w) := rfl

theorem modifyWorld_apply (f : World → World) (w : World) :
    modifyWorld f w = (Except.ok (), f w) := rfl

theorem read_optional_text_apply (p : PathId) (w : World) :
    read_optional_text p w = (Except.ok (w.readPath p), w) := rfl

theorem write_text_apply (p : PathId) (s : String) (w : World) :
    write_text p s w = (Except.ok (), w.writePath p s) := rfl

theorem remove_file_apply (p : PathId) (w : World) :
    remove_file p w = (Except.ok (), w.removePath p) := rfl

theorem nowTime_apply (w : World) : nowTime w = (Except.ok w.now, w) := rfl
theorem utc_now_apply (w : World) : utc_now w = (Except.ok (toString w.now), w) := rfl
theorem monoTime_apply (w : World) : monoTime w = (Except.ok w.now, w) := rfl
theorem litellm_get_apply (w : World) :
    litellm_get w = (Except.ok (w.llm w.llmPolls), { w with llmPolls := w.llmPolls + 1 }) := rfl

theorem active_mode_apply (w : World) :
    active_mode w = (Except.ok (read_mode_of w.activeModeFile), w) := by
  cases h : w.activeModeFile <;>
    simp [active_mode, read_mode_of, read_optional_text_apply, bind_apply, pure_apply, h,
      World.readPath]

theorem active_model_apply (w : World) :
    active_model w = (Except.ok (active_model_of w.activeModelFile), w) := by
  cases h : w.activeModelFile <;>
    simp [active_model, active_model_of, read_optional_text_apply, bind_apply, pure_apply, h,
      World.readPath]

theorem comfy_lease_status_apply (w : World) :
    comfy_lease_status w = (Except.ok (lease_status_of w.leaseFile w.now), w) := by
  cases h : w.leaseFile with
  | none =>
    simp [comfy_lease_status, comfy_lease_until, lease_status_of, read_optional_text_apply,
      bind_apply, pure_apply, h, World.readPath]
  | some raw =>
    cases hp : parse_utc_iso raw <;>
      simp [comfy_lease_status, comfy_lease_until, lease_status_of, read_optional_text_apply,
        bind_apply, pure_apply, nowTime_apply, h, hp, World.readPath]

theorem current_switch_snapshot_apply (w : World) :
    current_switch_snapshot w = (Except.ok (snapshot_of w.currentSwitch w.now), w) := by
  cases h : w.currentSwitch <;> simp [current_switch_snapshot, snapshot_of, h]

theorem set_runtime_state_clear (w : World) :
    set_runtime_state none true w =
      (Except.ok (), { w with lastError := none, lastSwitchAt := some (toString w.now) }) := rfl

theorem set_runtime_state_err (e : String) (w : World) :
    set_runtime_state (some e) false w =
      (Except.ok (), { w with lastError := some e, lastSwitchAt := some (toString w.now) }) := rfl

theorem set_active_mode_llm (w : World) :
    set_active_mode "llm" w =
      (Except.ok (), ((w.writePath PathId.activeMode "llm\n").removePath PathId.comfyLease)) := rfl

theorem set_active_mode_comfy (w : World) :
    set_active_mode "comfy" w =
      (Except.ok (), w.writePath PathId.activeMode "comfy\n") := rfl

theorem clear_comfy_lease_apply (w : World) :
    clear_comfy_lease w = (Except.ok (), w.removePath PathId.comfyLease) := rfl

theorem set_comfy_lease_apply (ttl : Int) (w : World) :
    set_comfy_lease ttl w =
      (Except.ok (w.now + ttl * 60),
        w.writePath PathId.comfyLease (toString (w.now + ttl * 60) ++ "\n")) := rfl

theorem update_switch_state_nojob (switch_id : Nat) (a : UpdateArgs) {w : World}
    (h : w.currentSwitch = none) : update_switch_state switch_id a w = (Except.ok (), w) := by
  simp [update_switch_state, h]

theorem add_step_nojob (step : String) (ok : Bool) (detail : String) (sid : Nat)
    (state state_text : Option String) (ready : Option Bool) (error : Option (Option String))
    {w : World} (h : w.currentSwitch = none) :
    add_step step ok detail (some sid) state state_text ready error w =
      (Except.ok (),
        { w with pipeSteps :=
            w.pipeSteps ++ [{ step := step, at_ := toString w.now, ok := ok, detail := detail }] }) := by
  simp [add_step, bind_apply, pure_apply, utc_now_apply, modifyWorld_apply, getWorld_apply,
    update_switch_state, h]

theorem create_switch_state_apply (to_model state state_text : String)
    (from_model current_step : Option String) (w : World) :
    create_switch_state to_model state state_text from_model current_step w =
      (Except.ok (w.switchIdSeq + 1),
        { w with
          switchIdSeq := w.switchIdSeq + 1,
          currentSwitch := some
            { id := w.switchIdSeq + 1, state := state, from_model := from_model,
              to_model := to_model, current_step := current_step, state_text := state_text,
              started_at := toString w.now, updated_at := toString w.now, finished_at := none,
              duration_ms := 0, error := none, steps := [], ready := false,
              startedMonotonic := w.now } }) := rfl

/-! ### Concrete docker environments and their request algebra -/

theorem path_fast_json :
    "/containers/" ++ "vllm-fast" ++ "/json" = "/containers/vllm-fast/json" := rfl

theorem path_fast_start :
    "/containers/" ++ "vllm-fast" ++ "/start" = "/containers/vllm-fast/start" := rfl

theorem path_fast_stop :
    "/containers/" ++ "vllm-fast" ++ "/stop" = "/containers/vllm-fast/stop" := rfl

theorem path_quality_json :
    "/containers/" ++ "vllm-quality" ++ "/json" = "/containers/vllm-quality/json" := rfl

theorem path_quality_start :
    "/containers/" ++ "vllm-quality" ++ "/start" = "/containers/vllm-quality/start" := rfl

theorem path_quality_stop :
    "/containers/" ++ "vllm-quality" ++ "/stop" = "/containers/vllm-quality/stop" := rfl

theorem path_deepseek_json :
    "/containers/" ++ "vllm-deepseek" ++ "/json" = "/containers/vllm-deepseek/json" := rfl

theorem path_deepseek_start :
    "/containers/" ++ "vllm-deepseek" ++ "/start" = "/containers/vllm-deepseek/start" := rfl

theorem path_deepseek_stop :
    "/containers/" ++ "vllm-deepseek" ++ "/stop" = "/containers/vllm-deepseek/stop" := rfl

theorem path_qwen32b_json :
    "/containers/" ++ "vllm-qwen32b" ++ "/json" = "/containers/vllm-qwen32b/json" := rfl

theorem path_qwen32b_start :
    "/containers/" ++ "vllm-qwen32b" ++ "/start" = "/containers/vllm-qwen32b/start" := rfl

theorem path_qwen32b_stop :
    "/containers/" ++ "vllm-qwen32b" ++ "/stop" = "/containers/vllm-qwen32b/stop" := rfl

theorem path_litellm_json :
    "/containers/" ++ "litellm" ++ "/json" = "/containers/litellm/json" := rfl

theorem path_litellm_start :
    "/containers/" ++ "litellm" ++ "/start" = "/containers/litellm/start" := rfl

theorem path_litellm_stop :
    "/containers/" ++ "litellm" ++ "/stop" = "/containers/litellm/stop" := rfl

theorem path_comfyui_json :
    "/containers/" ++ "comfyui" ++ "/json" = "/containers/comfyui/json" := rfl

theorem path_comfyui_start :
    "/containers/" ++ "comfyui" ++ "/start" = "/containers/comfyui/start" := rfl

theorem path_comfyui_stop :
    "/containers/" ++ "comfyui" ++ "/stop" = "/containers/comfyui/stop" := rfl

theorem envFor_fast_json (i s t : String → DResp) (m : String) :
    envFor i s t m "/containers/vllm-fast/json" = i "vllm-fast" := rfl

theorem envFor_fast_start (i s t : String → DResp) (m : String) :
    envFor i s t m "/containers/vllm-fast/start" = s "vllm-fast" := rfl

theorem envFor_fast_stop (i s t : String → DResp) (m : String) :
    envFor i s t m "/containers/vllm-fast/stop" = t "vllm-fast" := rfl

theorem envFor_quality_json (i s t : String → DResp) (m : String) :
    envFor i s t m "/containers/vllm-quality/json" = i "vllm-quality" := rfl

theorem envFor_quality_start (i s t : String → DResp) (m : String) :
    envFor i s t m "/containers/vllm-quality/start" = s "vllm-quality" := rfl

theorem envFor_quality_stop (i s t : String → DResp) (m : String) :
    envFor i s t m "/containers/vllm-quality/stop" = t "vllm-quality" := rfl

theorem envFor_deepseek_json (i s t : String → DResp) (m : String) :
    envFor i s t m "/containers/vllm-deepseek/json" = i "vllm-deepseek" := rfl

theorem envFor_deepseek_start (i s t : String → DResp) (m : String) :
    envFor i s t m "/containers/vllm-deepseek/start" = s "vllm-deepseek" := rfl

theorem envFor_deepseek_stop (i s t : String → DResp) (m : String) :
    envFor i s t m "/containers/vllm-deepseek/stop" = t "vllm-deepseek" := rfl

theorem envFor_qwen32b_json (i s t : String → DResp) (m : String) :
    envFor i s t m "/containers/vllm-qwen32b/json" = i "vllm-qwen32b" := rfl

theorem envFor_qwen32b_start (i s t : String → DResp) (m : String) :
    envFor i s t m "/containers/vllm-qwen32b/start" = s "vllm-qwen32b" := rfl

theorem envFor_qwen32b_stop (i s t : String → DResp) (m : String) :
    envFor i s t m "/containers/vllm-qwen32b/stop" = t "vllm-qwen32b" := rfl

theorem envFor_litellm_json (i s t : String → DResp) (m : String) :
    envFor i s t m "/containers/litellm/json" = i "litellm" := rfl

theorem envFor_litellm_start (i s t : String → DResp) (m : String) :
    envFor i s t m "/containers/litellm/start" = s "litellm" := rfl

theorem envFor_litellm_stop (i s t : String → DResp) (m : String) :
    envFor i s t m "/containers/litellm/stop" = t "litellm" := rfl

theorem envFor_comfyui_json (i s t : String → DResp) (m : String) :
    envFor i s t m "/containers/comfyui/json" = i "comfyui" := rfl

theorem envFor_comfyui_start (i s t : String → DResp) (m : String) :
    envFor i s t m "/containers/comfyui/start" = s "comfyui" := rfl

theorem envFor_comfyui_stop (i s t : String → DResp) (m : String) :
    envFor i s t m "/containers/comfyui/stop" = t "comfyui" := rfl

theorem runBy_fast (b0 b1 b2 b3 : Bool) : runBy b0 b1 b2 b3 "vllm-fast" = b0 := rfl
theorem runBy_quality (b0 b1 b2 b3 : Bool) : runBy b0 b1 b2 b3 "vllm-quality" = b1 := rfl
theorem runBy_deepseek (b0 b1 b2 b3 : Bool) : runBy b0 b1 b2 b3 "vllm-deepseek" = b2 := rfl
theorem runBy_qwen32b (b0 b1 b2 b3 : Bool) : runBy b0 b1 b2 b3 "vllm-qwen32b" = b3 := rfl
theorem runBy_litellm (b0 b1 b2 b3 : Bool) : runBy b0 b1 b2 b3 "litellm" = false := rfl
theorem runBy_comfyui (b0 b1 b2 b3 : Bool) : runBy b0 b1 b2 b3 "comfyui" = false := rfl

theorem wait_ready_health_fuel (name : String) :
    wait_container_ready name HEALTH_TIMEOUT_SECONDS
      = wait_container_go name (239 + 1) "unknown" "unknown" := rfl

theorem wait_litellm_verify_fuel (model : String) :
    wait_litellm_model model LITELLM_VERIFY_TIMEOUT_SECONDS
      = wait_litellm_go model (44 + 1) := rfl

theorem container_json_200 {w : World} {name : String} {i : ContainerInfo} {txt : String}
    (h : w.docker "GET" ("/containers/" ++ name ++ "/json") = DResp.resp 200 (some i) txt) :
    container_json name w =
      (Except.ok (some i),
        { w with dockerLog := w.dockerLog ++ [("GET", "/containers/" ++ name ++ "/json")] }) := by
  simp [container_json, docker_request, bind_apply, pure_apply, throwErr, h]

theorem container_json_404 {w : World} {name : String} {i : Option ContainerInfo} {txt : String}
    (h : w.docker "GET" ("/containers/" ++ name ++ "/json") = DResp.resp 404 i txt) :
    container_json name w =
      (Except.ok none,
        { w with dockerLog := w.dockerLog ++ [("GET", "/containers/" ++ name ++ "/json")] }) := by
  simp [container_json, docker_request, bind_apply, pure_apply, throwErr, h]

theorem container_json_exn {w : World} {name : String} {msg : String}
    (h : w.docker "GET" ("/containers/" ++ name ++ "/json") = DResp.exn msg) :
    container_json name w =
      (Except.error (PyErr.runtimeError msg),
        { w with dockerLog := w.dockerLog ++ [("GET", "/containers/" ++ name ++ "/json")] }) := by
  simp [container_json, docker_request, bind_apply, pure_apply, throwErr, h]

theorem container_start_204 {w : World} {name : String} {i : Option ContainerInfo} {txt : String}
    (h : w.docker "POST" ("/containers/" ++ name ++ "/start") = DResp.resp 204 i txt) :
    container_start name w =
      (Except.ok (),
        { w with dockerLog := w.dockerLog ++ [("POST", "/containers/" ++ name ++ "/start")] }) := by
  simp [container_start, docker_request, bind_apply, pure_apply, throwErr, h]

theorem container_start_exn {w : World} {name : String} {msg : String}
    (h : w.docker "POST" ("/containers/" ++ name ++ "/start") = DResp.exn msg) :
    container_start name w =
      (Except.error (PyErr.runtimeError msg),
        { w with dockerLog := w.dockerLog ++ [("POST", "/containers/" ++ name ++ "/start")] }) := by
  simp [container_start, docker_request, bind_apply, pure_apply, throwErr, h]

theorem container_stop_204 {w : World} {name : String} {i : Option ContainerInfo} {txt : String}
    (h : w.docker "POST" ("/containers/" ++ name ++ "/stop") = DResp.resp 204 i txt) :
    container_stop name w =
      (Except.ok (),
        { w with dockerLog := w.dockerLog ++ [("POST", "/containers/" ++ name ++ "/stop")] }) := by
  simp [container_stop, docker_request, bind_apply, pure_apply, throwErr, h]

theorem container_stop_404 {w : World} {name : String} {i : Option ContainerInfo} {txt : String}
    (h : w.docker "POST" ("/containers/" ++ name ++ "/stop") = DResp.resp 404 i txt) :
    container_stop name w =
      (Except.ok (),
        { w with dockerLog := w.dockerLog ++ [("POST", "/containers/" ++ name ++ "/stop")] }) := by
  simp [container_stop, docker_request, bind_apply, pure_apply, throwErr, h]

theorem container_stop_exn {w : World} {name : String} {msg : String}
    (h : w.docker "POST" ("/containers/" ++ name ++ "/stop") = DResp.exn msg) :
    container_stop name w =
      (Except.error (PyErr.runtimeError msg),
        { w with dockerLog := w.dockerLog ++ [("POST", "/containers/" ++ name ++ "/stop")] }) := by
  simp [container_stop, docker_request, bind_apply, pure_apply, throwErr, h]

theorem container_stop_err {w : World} {name : String} {i : Option ContainerInfo} {txt : String}
    (h : w.docker "POST" ("/containers/" ++ name ++ "/stop") = DResp.resp 500 i txt) :
    container_stop name w =
      (Except.error (PyErr.runtimeError ("docker error: " ++ txt)),
        { w with dockerLog := w.dockerLog ++ [("POST", "/containers/" ++ name ++ "/stop")] }) := by
  simp [container_stop, docker_request, bind_apply, pure_apply, throwErr, h]

theorem ensure_container_created_ok {w : World} {name : String} {i : ContainerInfo}
    {txt : String} (bt : String)
    (h : w.docker "GET" ("/containers/" ++ name ++ "/json") = DResp.resp 200 (some i) txt) :
    ensure_container_created name bt w =
      (Except.ok (),
        { w with dockerLog := w.dockerLog ++ [("GET", "/containers/" ++ name ++ "/json")] }) := by
  simp [ensure_container_created, bind_apply, pure_apply, throwErr, container_json_200 h]

theorem ensure_container_created_missing {w : World} {name : String}
    {i : Option ContainerInfo} {txt : String} (bt : String)
    (h : w.docker "GET" ("/containers/" ++ name ++ "/json") = DResp.resp 404 i txt) :
    ensure_container_created name bt w =
      (Except.error (PyErr.httpExc 412
          ("target container is not created: " ++ name ++ ". Run make " ++ bt ++ " first.")),
        { w with dockerLog := w.dockerLog ++ [("GET", "/containers/" ++ name ++ "/json")] }) := by
  simp [ensure_container_created, bind_apply, pure_apply, throwErr, container_json_404 h]

theorem snapshot_or_error_200 {w : World} {name : String} {i : ContainerInfo} {txt : String}
    (h : w.docker "GET" ("/containers/" ++ name ++ "/json") = DResp.resp 200 (some i) txt) :
    snapshot_or_error name w =
      (Except.ok { exists_ := true, status := i.status, health := i.health, error := none },
        { w with dockerLog := w.dockerLog ++ [("GET", "/containers/" ++ name ++ "/json")] }) := by
  simp [snapshot_or_error, state_snapshot, attempt, bind_apply, pure_apply,
    container_json_200 h]

theorem snapshot_or_error_404 {w : World} {name : String} {i : Option ContainerInfo}
    {txt : String}
    (h : w.docker "GET" ("/containers/" ++ name ++ "/json") = DResp.resp 404 i txt) :
    snapshot_or_error name w =
      (Except.ok { exists_ := false, status := none, health := none, error := none },
        { w with dockerLog := w.dockerLog ++ [("GET", "/containers/" ++ name ++ "/json")] }) := by
  simp [snapshot_or_error, state_snapshot, attempt, bind_apply, pure_apply,
    container_json_404 h]

theorem snapshot_or_error_exn {w : World} {name : String} {msg : String}
    (h : w.docker "GET" ("/containers/" ++ name ++ "/json") = DResp.exn msg) :
    snapshot_or_error name w =
      (Except.ok { exists_ := false, status := none, health := none, error := some msg },
        { w with dockerLog := w.dockerLog ++ [("GET", "/containers/" ++ name ++ "/json")] }) := by
  simp [snapshot_or_error, state_snapshot, attempt, bind_apply, pure_apply,
    container_json_exn h]


theorem running_iff (b : Bool) :
    ((if b then ("running" : String) else "exited") = "running") = (b = true) := by
  cases b <;> simp

/-- `status_payload` on any world whose docker environment is
`envFor (inspectBy r) okStart okStop`: it succeeds, reports `famStatus`,
and issues exactly the six inspect requests. -/
theorem snapshot_or_error_insp {w : World} {name : String} {b : Bool}
    (h : w.docker "GET" ("/containers/" ++ name ++ "/json")
          = DResp.resp 200 (some (inspInfo b)) "") :
    snapshot_or_error name w =
      (Except.ok (snapCont b),
        { w with dockerLog := w.dockerLog ++ [("GET", "/containers/" ++ name ++ "/json")] }) := by
  rw [snapshot_or_error_200 h]
  simp [snapCont, inspInfo]

theorem snapshot_env_fast (r : String → Bool) (w : World)
    (henv : w.docker = envFor (inspectBy r) okStart okStop) :
    snapshot_or_error "vllm-fast" w =
      (Except.ok (snapCont (r "vllm-fast")),
        { w with dockerLog := w.dockerLog ++ [("GET", "/containers/vllm-fast/json")] }) := by
  have h : w.docker "GET" ("/containers/" ++ "vllm-fast" ++ "/json")
      = DResp.resp 200 (some (inspInfo (r "vllm-fast"))) "" := by
    rw [path_fast_json, henv, envFor_fast_json]; rfl
  rw [snapshot_or_error_insp h, path_fast_json]

theorem snapshot_env_quality (r : String → Bool) (w : World)
    (henv : w.docker = envFor (inspectBy r) okStart okStop) :
    snapshot_or_error "vllm-quality" w =
      (Except.ok (snapCont (r "vllm-quality")),
        { w with dockerLog := w.dockerLog ++ [("GET", "/containers/vllm-quality/json")] }) := by
  have h : w.docker "GET" ("/containers/" ++ "vllm-quality" ++ "/json")
      = DResp.resp 200 (some (inspInfo (r "vllm-quality"))) "" := by
    rw [path_quality_json, henv, envFor_quality_json]; rfl
  rw [snapshot_or_error_insp h, path_quality_json]

theorem snapshot_env_deepseek (r : String → Bool) (w : World)
    (henv : w.docker = envFor (inspectBy r) okStart okStop) :
    snapshot_or_error "vllm-deepseek" w =
      (Except.ok (snapCont (r "vllm-deepseek")),
        { w with dockerLog := w.dockerLog ++ [("GET", "/containers/vllm-deepseek/json")] }) := by
  have h : w.docker "GET" ("/containers/" ++ "vllm-deepseek" ++ "/json")
      = DResp.resp 200 (some (inspInfo (r "vllm-deepseek"))) "" := by
    rw [path_deepseek_json, henv, envFor_deepseek_json]; rfl
  rw [snapshot_or_error_insp h, path_deepseek_json]

theorem snapshot_env_qwen32b (r : String → Bool) (w : World)
    (henv : w.docker = envFor (inspectBy r) okStart okStop) :
    snapshot_or_error "vllm-qwen32b" w =
      (Except.ok (snapCont (r "vllm-qwen32b")),
        { w with dockerLog := w.dockerLog ++ [("GET", "/containers/vllm-qwen32b/json")] }) := by
  have h : w.docker "GET" ("/containers/" ++ "vllm-qwen32b" ++ "/json")
      = DResp.resp 200 (some (inspInfo (r "vllm-qwen32b"))) "" := by
    rw [path_qwen32b_json, henv, envFor_qwen32b_json]; rfl
  rw [snapshot_or_error_insp h, path_qwen32b_json]

theorem snapshot_env_litellm (r : String → Bool) (w : World)
    (henv : w.docker = envFor (inspectBy r) okStart okStop) :
    snapshot_or_error "litellm" w =
      (Except.ok (snapCont (r "litellm")),
        { w with dockerLog := w.dockerLog ++ [("GET", "/containers/litellm/json")] }) := by
  have h : w.docker "GET" ("/containers/" ++ "litellm" ++ "/json")
      = DResp.resp 200 (some (inspInfo (r "litellm"))) "" := by
    rw [path_litellm_json, henv, envFor_litellm_json]; rfl
  rw [snapshot_or_error_insp h, path_litellm_json]

theorem snapshot_env_comfyui (r : String → Bool) (w : World)
    (henv : w.docker = envFor (inspectBy r) okStart okStop) :
    snapshot_or_error "comfyui" w =
      (Except.ok (snapCont (r "comfyui")),
        { w with dockerLog := w.dockerLog ++ [("GET", "/containers/comfyui/json")] }) := by
  have h : w.docker "GET" ("/containers/" ++ "comfyui" ++ "/json")
      = DResp.resp 200 (some (inspInfo (r "comfyui"))) "" := by
    rw [path_comfyui_json, henv, envFor_comfyui_json]; rfl
  rw [snapshot_or_error_insp h, path_comfyui_json]

theorem status_payload_env {w : World} (r : String → Bool)
    (henv : w.docker = envFor (inspectBy r) okStart okStop) :
    status_payload w =
      (Except.ok (famStatus r w),
        { w with dockerLog := w.dockerLog ++
            [("GET", "/containers/vllm-fast/json"), ("GET", "/containers/vllm-quality/json"),
             ("GET", "/containers/vllm-deepseek/json"), ("GET", "/containers/vllm-qwen32b/json"),
             ("GET", "/containers/litellm/json"), ("GET", "/containers/comfyui/json")] }) := by
  simp [status_payload, snapshots_loop, MODELS, bind_apply, pure_apply, getWorld_apply,
    active_mode_apply, active_model_apply, comfy_lease_status_apply,
    current_switch_snapshot_apply, famStatus, runningList, snapCont, running_iff,
    snapshot_env_fast r, snapshot_env_quality r, snapshot_env_deepseek r,
    snapshot_env_qwen32b r, snapshot_env_litellm r, snapshot_env_comfyui r,
    henv, inspectBy, inspInfo, LITELLM_CONTAINER, COMFY_CONTAINER,
    envFor_fast_json, envFor_quality_json, envFor_deepseek_json, envFor_qwen32b_json,
    envFor_litellm_json, envFor_comfyui_json,
    path_fast_json, path_quality_json, path_deepseek_json, path_qwen32b_json,
    path_litellm_json, path_comfyui_json,
    runBy_fast, runBy_quality, runBy_deepseek, runBy_qwen32b, runBy_litellm, runBy_comfyui,
    running_models_from_status]

theorem stop_env_fast (r : String → Bool) (w : World)
    (henv : w.docker = envFor (inspectBy r) okStart okStop) :
    container_stop "vllm-fast" w =
      (Except.ok (),
        { w with dockerLog := w.dockerLog ++ [("POST", "/containers/vllm-fast/stop")] }) := by
  have h : w.docker "POST" ("/containers/" ++ "vllm-fast" ++ "/stop") = DResp.resp 204 none "" := by
    rw [path_fast_stop, henv, envFor_fast_stop]; rfl
  rw [container_stop_204 h, path_fast_stop]

theorem start_env_fast (r : String → Bool) (w : World)
    (henv : w.docker = envFor (inspectBy r) okStart okStop) :
    container_start "vllm-fast" w =
      (Except.ok (),
        { w with dockerLog := w.dockerLog ++ [("POST", "/containers/vllm-fast/start")] }) := by
  have h : w.docker "POST" ("/containers/" ++ "vllm-fast" ++ "/start") = DResp.resp 204 none "" := by
    rw [path_fast_start, henv, envFor_fast_start]; rfl
  rw [container_start_204 h, path_fast_start]

theorem stop_env_quality (r : String → Bool) (w : World)
    (henv : w.docker = envFor (inspectBy r) okStart okStop) :
    container_stop "vllm-quality" w =
      (Except.ok (),
        { w with dockerLog := w.dockerLog ++ [("POST", "/containers/vllm-quality/stop")] }) := by
  have h : w.docker "POST" ("/containers/" ++ "vllm-quality" ++ "/stop") = DResp.resp 204 none "" := by
    rw [path_quality_stop, henv, envFor_quality_stop]; rfl
  rw [container_stop_204 h, path_quality_stop]

theorem start_env_quality (r : String → Bool) (w : World)
    (henv : w.docker = envFor (inspectBy r) okStart okStop) :
    container_start "vllm-quality" w =
      (Except.ok (),
        { w with dockerLog := w.dockerLog ++ [("POST", "/containers/vllm-quality/start")] }) := by
  have h : w.docker "POST" ("/containers/" ++ "vllm-quality" ++ "/start") = DResp.resp 204 none "" := by
    rw [path_quality_start, henv, envFor_quality_start]; rfl
  rw [container_start_204 h, path_quality_start]

theorem stop_env_deepseek (r : String → Bool) (w : World)
    (henv : w.docker = envFor (inspectBy r) okStart okStop) :
    container_stop "vllm-deepseek" w =
      (Except.ok (),
        { w with dockerLog := w.dockerLog ++ [("POST", "/containers/vllm-deepseek/stop")] }) := by
  have h : w.docker "POST" ("/containers/" ++ "vllm-deepseek" ++ "/stop") = DResp.resp 204 none "" := by
    rw [path_deepseek_stop, henv, envFor_deepseek_stop]; rfl
  rw [container_stop_204 h, path_deepseek_stop]

theorem start_env_deepseek (r : String → Bool) (w : World)
    (henv : w.docker = envFor (inspectBy r) okStart okStop) :
    container_start "vllm-deepseek" w =
      (Except.ok (),
        { w with dockerLog := w.dockerLog ++ [("POST", "/containers/vllm-deepseek/start")] }) := by
  have h : w.docker "POST" ("/containers/" ++ "vllm-deepseek" ++ "/start") = DResp.resp 204 none "" := by
    rw [path_deepseek_start, henv, envFor_deepseek_start]; rfl
  rw [container_start_204 h, path_deepseek_start]

theorem stop_env_qwen32b (r : String → Bool) (w : World)
    (henv : w.docker = envFor (inspectBy r) okStart okStop) :
    container_stop "vllm-qwen32b" w =
      (Except.ok (),
        { w with dockerLog := w.dockerLog ++ [("POST", "/containers/vllm-qwen32b/stop")] }) := by
  have h : w.docker "POST" ("/containers/" ++ "vllm-qwen32b" ++ "/stop") = DResp.resp 204 none "" := by
    rw [path_qwen32b_stop, henv, envFor_qwen32b_stop]; rfl
  rw [container_stop_204 h, path_qwen32b_stop]

theorem start_env_qwen32b (r : String → Bool) (w : World)
    (henv : w.docker = envFor (inspectBy r) okStart okStop) :
    container_start "vllm-qwen32b" w =
      (Except.ok (),
        { w with dockerLog := w.dockerLog ++ [("POST", "/containers/vllm-qwen32b/start")] }) := by
  have h : w.docker "POST" ("/containers/" ++ "vllm-qwen32b" ++ "/start") = DResp.resp 204 none "" := by
    rw [path_qwen32b_start, henv, envFor_qwen32b_start]; rfl
  rw [container_start_204 h, path_qwen32b_start]

theorem stop_env_litellm (r : String → Bool) (w : World)
    (henv : w.docker = envFor (inspectBy r) okStart okStop) :
    container_stop "litellm" w =
      (Except.ok (),
        { w with dockerLog := w.dockerLog ++ [("POST", "/containers/litellm/stop")] }) := by
  have h : w.docker "POST" ("/containers/" ++ "litellm" ++ "/stop") = DResp.resp 204 none "" := by
    rw [path_litellm_stop, henv, envFor_litellm_stop]; rfl
  rw [container_stop_204 h, path_litellm_stop]

theorem start_env_litellm (r : String → Bool) (w : World)
    (henv : w.docker = envFor (inspectBy r) okStart okStop) :
    container_start "litellm" w =
      (Except.ok (),
        { w with dockerLog := w.dockerLog ++ [("POST", "/containers/litellm/start")] }) := by
  have h : w.docker "POST" ("/containers/" ++ "litellm" ++ "/start") = DResp.resp 204 none "" := by
    rw [path_litellm_start, henv, envFor_litellm_start]; rfl
  rw [container_start_204 h, path_litellm_start]

theorem stop_env_comfyui (r : String → Bool) (w : World)
    (henv : w.docker = envFor (inspectBy r) okStart okStop) :
    container_stop "comfyui" w =
      (Except.ok (),
        { w with dockerLog := w.dockerLog ++ [("POST", "/containers/comfyui/stop")] }) := by
  have h : w.docker "POST" ("/containers/" ++ "comfyui" ++ "/stop") = DResp.resp 204 none "" := by
    rw [path_comfyui_stop, henv, envFor_comfyui_stop]; rfl
  rw [container_stop_204 h, path_comfyui_stop]

theorem start_env_comfyui (r : String → Bool) (w : World)
    (henv : w.docker = envFor (inspectBy r) okStart okStop) :
    container_start "comfyui" w =
      (Except.ok (),
        { w with dockerLog := w.dockerLog ++ [("POST", "/containers/comfyui/start")] }) := by
  have h : w.docker "POST" ("/containers/" ++ "comfyui" ++ "/start") = DResp.resp 204 none "" := by
    rw [path_comfyui_start, henv, envFor_comfyui_start]; rfl
  rw [container_start_204 h, path_comfyui_start]

theorem stop_models_env (r : String → Bool) (w : World)
    (henv : w.docker = envFor (inspectBy r) okStart okStop) :
    stop_all_model_containers w =
      (Except.ok (),
        { w with dockerLog := w.dockerLog ++
            [("POST", "/containers/vllm-fast/stop"), ("POST", "/containers/vllm-quality/stop"),
             ("POST", "/containers/vllm-deepseek/stop"), ("POST", "/containers/vllm-qwen32b/stop")] }) := by
  simp [stop_all_model_containers, stop_models_loop, MODELS, bind_apply, pure_apply,
    stop_env_fast r, stop_env_quality r, stop_env_deepseek r, stop_env_qwen32b r, henv]

/-- One healthy probe ends `wait_container_go` at once. -/
theorem wait_go_insp (name ls lh : String) (n : Nat) (b : Bool) {w : World}
    {txt : String}
    (h : w.docker "GET" ("/containers/" ++ name ++ "/json")
          = DResp.resp 200 (some (inspInfo b)) txt) :
    wait_container_go name (n + 1) ls lh w =
      (Except.ok (),
        { w with dockerLog := w.dockerLog ++ [("GET", "/containers/" ++ name ++ "/json")] }) := by
  simp [wait_container_go, container_json_200 h, bind_apply, pure_apply, inspInfo]

/-- A 200 inventory response carrying the sought model ends
`wait_litellm_go` at once. -/
theorem wait_litellm_found (model : String) (n : Nat) {w : World} {ds : List LItem}
    (h : w.llm w.llmPolls = LResp.resp 200 (some (LJson.dict ds)))
    (hmem : model ∈ ds.filterMap (fun it =>
      match it with
      | LItem.item i => some (pyStr i)
      | LItem.notDict => none)) :
    wait_litellm_go model (n + 1) w =
      (Except.ok (), { w with llmPolls := w.llmPolls + 1 }) := by
  have hmem2 : ∃ a ∈ ds,
      (match a with
       | LItem.item i => some (pyStr i)
       | LItem.notDict => none) = some model := by
    simpa [List.mem_filterMap] using hmem
  simp [wait_litellm_go, litellm_get_apply, bind_apply, pure_apply, h, hmem2]


/-- Full effect of the no-op short-circuit branch: a `noop` step is
recorded, the error state is cleared, the active mode is confirmed `llm`
with the lease removed, the job succeeds, and the only container requests
issued are the six payload inspections (no start or stop). -/
theorem llm_noop_branch_run (model : String) (sid : Nat) (fm : Option String)
    (started : Int) (r : String → Bool) (w : World)
    (henv : w.docker = envFor (inspectBy r) okStart okStop)
    (hjob : w.currentSwitch = none) :
    llm_noop_branch model sid fm started w =
      (Except.ok
        { payload := famStatus r
            { w with
              pipeSteps := w.pipeSteps ++
                [{ step := "noop", at_ := toString w.now, ok := true,
                   detail := "model " ++ model ++ " is already active" }],
              lastError := none, lastSwitchAt := some (toString w.now),
              activeModeFile := some "llm\n", leaseFile := none },
          switch_id := sid, status := "success", from_model := fm, to_model := model,
          steps := w.pipeSteps ++
            [{ step := "noop", at_ := toString w.now, ok := true,
               detail := "model " ++ model ++ " is already active" }],
          duration_ms := (w.now - started) * 1000, error := none },
        { w with
          pipeSteps := w.pipeSteps ++
            [{ step := "noop", at_ := toString w.now, ok := true,
               detail := "model " ++ model ++ " is already active" }],
          lastError := none, lastSwitchAt := some (toString w.now),
          activeModeFile := some "llm\n", leaseFile := none,
          dockerLog := w.dockerLog ++
            [("GET", "/containers/vllm-fast/json"), ("GET", "/containers/vllm-quality/json"),
             ("GET", "/containers/vllm-deepseek/json"), ("GET", "/containers/vllm-qwen32b/json"),
             ("GET", "/containers/litellm/json"), ("GET", "/containers/comfyui/json")] }) := by
  simp [llm_noop_branch, bind_apply, pure_apply, getWorld_apply, add_step_nojob,
    update_switch_state_nojob, set_runtime_state_clear, set_active_mode_llm,
    clear_comfy_lease_apply, switch_response, status_payload_env r, monoTime_apply,
    World.writePath, World.removePath, hjob, henv, MODE_LLM]


theorem llmAll_names :
    (MODELS.map (fun m => LItem.item (some m.litellm_model))).filterMap (fun it =>
      match it with
      | LItem.item i => some (pyStr i)
      | LItem.notDict => none) = MODELS.map (fun m => m.litellm_model) := rfl


theorem container_start_204W {w0 : World} {name : String}
    (h : w0.docker "POST" ("/containers/" ++ name ++ "/start") = DResp.resp 204 none "")
    (w : World) (hw : w.docker = w0.docker) :
    container_start name w =
      (Except.ok (),
        { w with dockerLog := w.dockerLog ++ [("POST", "/containers/" ++ name ++ "/start")] }) := by
  have h2 : w.docker "POST" ("/containers/" ++ name ++ "/start") = DResp.resp 204 none "" := by
    rw [hw]; exact h
  exact container_start_204 h2

theorem wait_go_inspW {w0 : World} {name : String} {b : Bool}
    (h : w0.docker "GET" ("/containers/" ++ name ++ "/json")
        = DResp.resp 200 (some (inspInfo b)) "")
    (ls lh : String) (n : Nat) (w : World) (hw : w.docker = w0.docker) :
    wait_container_go name (n + 1) ls lh w =
      (Except.ok (),
        { w with dockerLog := w.dockerLog ++ [("GET", "/containers/" ++ name ++ "/json")] }) := by
  have h2 : w.docker "GET" ("/containers/" ++ name ++ "/json")
      = DResp.resp 200 (some (inspInfo b)) "" := by
    rw [hw]; exact h
  exact wait_go_insp name ls lh n b h2

theorem wait_litellm_llmAll (model : String) (n : Nat)
    (hmem : model ∈ MODELS.map (fun m => m.litellm_model)) (w : World)
    (hw : w.llm = llmAll) :
    wait_litellm_go model (n + 1) w = (Except.ok (), { w with llmPolls := w.llmPolls + 1 }) := by
  have h2 : w.llm w.llmPolls
      = LResp.resp 200 (some (LJson.dict (MODELS.map (fun m => LItem.item (some m.litellm_model))))) := by
    rw [hw]; rfl
  have h3 : model ∈ (MODELS.map (fun m => LItem.item (some m.litellm_model))).filterMap (fun it =>
      match it with
      | LItem.item i => some (pyStr i)
      | LItem.notDict => none) := by
    rw [llmAll_names]; exact hmem
  exact wait_litellm_found model n h2 h3


theorem wait_ready_inspW {w0 : World} {name : String} {b : Bool}
    (h : w0.docker "GET" ("/containers/" ++ name ++ "/json")
        = DResp.resp 200 (some (inspInfo b)) "")
    (w : World) (hw : w.docker = w0.docker) :
    wait_container_ready name 480 w =
      (Except.ok (),
        { w with dockerLog := w.dockerLog ++ [("GET", "/containers/" ++ name ++ "/json")] }) := by
  have h2 : w.docker "GET" ("/containers/" ++ name ++ "/json")
      = DResp.resp 200 (some (inspInfo b)) "" := by
    rw [hw]; exact h
  exact wait_go_insp name "unknown" "unknown" 239 b h2

theorem wait_litellm_llmAll_90 (model : String)
    (hmem : model ∈ MODELS.map (fun m => m.litellm_model)) (w : World)
    (hw : w.llm = llmAll) :
    wait_litellm_model model 90 w = (Except.ok (), { w with llmPolls := w.llmPolls + 1 }) := by
  have h2 : w.llm w.llmPolls
      = LResp.resp 200 (some (LJson.dict (MODELS.map (fun m => LItem.item (some m.litellm_model))))) := by
    rw [hw]; rfl
  have h3 : model ∈ (MODELS.map (fun m => LItem.item (some m.litellm_model))).filterMap (fun it =>
      match it with
      | LItem.item i => some (pyStr i)
      | LItem.notDict => none) := by
    rw [llmAll_names]; exact hmem
  exact wait_litellm_found model 44 h2 h3

theorem ensure_active_config_run (model : String) (meta : ModelMeta) (c : String)
    {w : World} (hm : modelMeta? model = some meta)
    (hconf : w.templates.find? (fun t => t.1 == meta.template) = some (meta.template, c)) :
    ensure_active_config model w =
      (Except.ok (), (w.writePath PathId.activeConfig c).writePath PathId.activeModel model) := by
  simp [ensure_active_config, getWorld_apply, bind_apply, pure_apply, write_text_apply,
    hm, hconf, throwErr]

/-- Full effect of the disruptive main path when every orchestration call
succeeds, the target container probes healthy, and the gateway exposes the
target model: all nine disruptive steps run in order and the switch
succeeds with mode `llm` and no lease. -/
theorem llm_main_branch_run (model : String) (meta : ModelMeta) (c : String) (sid : Nat)
    (fm : Option String) (started : Int) (r : String → Bool) (w : World)
    (henv : w.docker = envFor (inspectBy r) okStart okStop)
    (hjob : w.currentSwitch = none)
    (hllm : w.llm = llmAll)
    (hm : modelMeta? model = some meta)
    (hconf : w.templates.find? (fun t => t.1 == meta.template) = some (meta.template, c))
    (hstart : w.docker "POST" ("/containers/" ++ meta.container ++ "/start")
        = DResp.resp 204 none "")
    (hwait : w.docker "GET" ("/containers/" ++ meta.container ++ "/json")
        = DResp.resp 200 (some (inspInfo (r meta.container))) "")
    (hmem : meta.litellm_model ∈ MODELS.map (fun m => m.litellm_model)) :
    llm_main_branch model meta.container sid fm started w =
      (Except.ok
        { payload := famStatus r
            { w with
              pipeSteps := w.pipeSteps ++
                [{ step := "stop_litellm", at_ := toString w.now, ok := true,
                   detail := "litellm stopped" },
                 { step := "stop_models", at_ := toString w.now, ok := true,
                   detail := "all vllm containers stopped" },
                 { step := "start_target", at_ := toString w.now, ok := true,
                   detail := "started " ++ meta.container },
                 { step := "wait_target", at_ := toString w.now, ok := true,
                   detail := meta.container ++ " is ready" },
                 { step := "activate_config", at_ := toString w.now, ok := true,
                   detail := "active config set to " ++ model },
                 { step := "start_litellm", at_ := toString w.now, ok := true,
                   detail := "litellm started" },
                 { step := "verify_litellm", at_ := toString w.now, ok := true,
                   detail := "litellm exposes model " ++ meta.litellm_model }],
              pipeDisruptive := true,
              activeConfigFile := some c, activeModelFile := some model,
              activeModeFile := some "llm\n", leaseFile := none,
              lastError := none, lastSwitchAt := some (toString w.now),
              llmPolls := w.llmPolls + 1,
              dockerLog := w.dockerLog ++
                [("POST", "/containers/litellm/stop"),
                 ("POST", "/containers/vllm-fast/stop"), ("POST", "/containers/vllm-quality/stop"),
                 ("POST", "/containers/vllm-deepseek/stop"), ("POST", "/containers/vllm-qwen32b/stop"),
                 ("POST", "/containers/" ++ meta.container ++ "/start"),
                 ("GET", "/containers/" ++ meta.container ++ "/json"),
                 ("POST", "/containers/litellm/start")] },
          switch_id := sid, status := "success", from_model := fm, to_model := model,
          steps := w.pipeSteps ++
            [{ step := "stop_litellm", at_ := toString w.now, ok := true,
               detail := "litellm stopped" },
             { step := "stop_models", at_ := toString w.now, ok := true,
               detail := "all vllm containers stopped" },
             { step := "start_target", at_ := toString w.now, ok := true,
               detail := "started " ++ meta.container },
             { step := "wait_target", at_ := toString w.now, ok := true,
               detail := meta.container ++ " is ready" },
             { step := "activate_config", at_ := toString w.now, ok := true,
               detail := "active config set to " ++ model },
             { step := "start_litellm", at_ := toString w.now, ok := true,
               detail := "litellm started" },
             { step := "verify_litellm", at_ := toString w.now, ok := true,
               detail := "litellm exposes model " ++ meta.litellm_model }],
          duration_ms := (w.now - started) * 1000, error := none },
        { w with
          pipeSteps := w.pipeSteps ++
            [{ step := "stop_litellm", at_ := toString w.now, ok := true,
               detail := "litellm stopped" },
             { step := "stop_models", at_ := toString w.now, ok := true,
               detail := "all vllm containers stopped" },
             { step := "start_target", at_ := toString w.now, ok := true,
               detail := "started " ++ meta.container },
             { step := "wait_target", at_ := toString w.now, ok := true,
               detail := meta.container ++ " is ready" },
             { step := "activate_config", at_ := toString w.now, ok := true,
               detail := "active config set to " ++ model },
             { step := "start_litellm", at_ := toString w.now, ok := true,
               detail := "litellm started" },
             { step := "verify_litellm", at_ := toString w.now, ok := true,
               detail := "litellm exposes model " ++ meta.litellm_model }],
          pipeDisruptive := true,
          activeConfigFile := some c, activeModelFile := some model,
          activeModeFile := some "llm\n", leaseFile := none,
          lastError := none, lastSwitchAt := some (toString w.now),
          llmPolls := w.llmPolls + 1,
          dockerLog := w.dockerLog ++
            [("POST", "/containers/litellm/stop"),
             ("POST", "/containers/vllm-fast/stop"), ("POST", "/containers/vllm-quality/stop"),
             ("POST", "/containers/vllm-deepseek/stop"), ("POST", "/containers/vllm-qwen32b/stop"),
             ("POST", "/containers/" ++ meta.container ++ "/start"),
             ("GET", "/containers/" ++ meta.container ++ "/json"),
             ("POST", "/containers/litellm/start"),
             ("GET", "/containers/vllm-fast/json"), ("GET", "/containers/vllm-quality/json"),
             ("GET", "/containers/vllm-deepseek/json"), ("GET", "/containers/vllm-qwen32b/json"),
             ("GET", "/containers/litellm/json"), ("GET", "/containers/comfyui/json")] }) := by
  have hm2 : modelMeta? model = some meta := hm
  simp [llm_main_branch, bind_apply, pure_apply, getWorld_apply, modifyWorld_apply,
    add_step_nojob, update_switch_state_nojob, set_runtime_state_clear, set_active_mode_llm,
    clear_comfy_lease_apply, switch_response, status_payload_env r, monoTime_apply,
    stop_env_litellm r, start_env_litellm r, stop_models_env r,
    container_start_204W hstart, wait_ready_inspW hwait,
    ensure_active_config_run model meta c hm,
    wait_litellm_llmAll_90 meta.litellm_model hmem, hmem,
    World.writePath, World.removePath, hjob, henv, hllm, hm2, hconf, LITELLM_CONTAINER,
    MODE_LLM, MODE_COMFY, HEALTH_TIMEOUT_SECONDS, LITELLM_VERIFY_TIMEOUT_SECONDS]


theorem ensure_container_created_okW {w0 : World} {name : String} {i : ContainerInfo}
    {txt : String}
    (h : w0.docker "GET" ("/containers/" ++ name ++ "/json") = DResp.resp 200 (some i) txt)
    (bt : String) (w : World) (hw : w.docker = w0.docker) :
    ensure_container_created name bt w =
      (Except.ok (),
        { w with dockerLog := w.dockerLog ++ [("GET", "/containers/" ++ name ++ "/json")] }) := by
  have h2 : w.docker "GET" ("/containers/" ++ name ++ "/json") = DResp.resp 200 (some i) txt := by
    rw [hw]; exact h
  exact ensure_container_created_ok bt h2

/-- The preflight and `stop_comfy` prefix of the body succeeds under the
healthy environment and hands over to the no-op/main dispatch. -/
theorem llm_body_run (model : String) (meta : ModelMeta) (sid : Nat) (fm : Option String)
    (rb : List String) (started : Int) (r : String → Bool) (w : World)
    (hm : modelMeta? model = some meta)
    (henv : w.docker = envFor (inspectBy r) okStart okStop)
    (hjob : w.currentSwitch = none)
    (hins : w.docker "GET" ("/containers/" ++ meta.container ++ "/json")
        = DResp.resp 200 (some (inspInfo (r meta.container))) "") :
    llm_pipeline_body model sid fm rb started w =
      (if llm_noop_condition fm rb model then llm_noop_branch model sid fm started
       else llm_main_branch model meta.container sid fm started)
      { w with
        pipeSteps := w.pipeSteps ++
          [{ step := "preflight", at_ := toString w.now, ok := true,
             detail := "target container exists: " ++ meta.container },
           { step := "stop_comfy", at_ := toString w.now, ok := true,
             detail := "comfyui stopped" }],
        dockerLog := w.dockerLog ++
          [("GET", "/containers/" ++ meta.container ++ "/json"),
           ("POST", "/containers/comfyui/stop")] } := by
  by_cases hc : llm_noop_condition fm rb model <;>
    simp [llm_pipeline_body, bind_apply, pure_apply, add_step_nojob,
      update_switch_state_nojob, ensure_container_created_okW hins, stop_env_comfyui r,
      hm, hjob, henv, hc, COMFY_CONTAINER]


/-- `run_switch_pipeline` reduced to the `try/except` over its body: the
initial reads and the `before` payload succeed under the healthy
environment, `running_before` is `runningList r`, and `from_model` is
derived by `pipeline_from_model`. -/
theorem run_switch_pipeline_run (model : String) (sid : Nat) (raise_http_errors : Bool)
    (r : String → Bool) (w : World)
    (henv : w.docker = envFor (inspectBy r) okStart okStop)
    (hjob : w.currentSwitch = none) :
    run_switch_pipeline model sid raise_http_errors w =
      attempt
        (llm_pipeline_body model sid
          (pipeline_from_model (runningList r) (active_model_of w.activeModelFile))
          (runningList r) w.now)
        (fun e =>
          match e with
          | PyErr.httpExc code detail =>
            llm_http_handler code detail raise_http_errors model sid
              (pipeline_from_model (runningList r) (active_model_of w.activeModelFile)) w.now
          | PyErr.runtimeError m =>
            llm_exc_handler m model sid
              (pipeline_from_model (runningList r) (active_model_of w.activeModelFile))
              w.activeConfigFile w.activeModelFile w.now
          | PyErr.otherExc m =>
            llm_exc_handler m model sid
              (pipeline_from_model (runningList r) (active_model_of w.activeModelFile))
              w.activeConfigFile w.activeModelFile w.now)
        { w with
          pipeSteps := [], pipeDisruptive := false,
          dockerLog := w.dockerLog ++
            [("GET", "/containers/vllm-fast/json"), ("GET", "/containers/vllm-quality/json"),
             ("GET", "/containers/vllm-deepseek/json"), ("GET", "/containers/vllm-qwen32b/json"),
             ("GET", "/containers/litellm/json"), ("GET", "/containers/comfyui/json")] } := by
  simp [run_switch_pipeline, bind_apply, pure_apply, monoTime_apply, modifyWorld_apply,
    read_optional_text_apply, World.readPath, status_payload_env r,
    update_switch_state_nojob, famStatus, running_models_from_status, hjob, henv]


/-- The no-op guard holds exactly when the target is the sole running
backend (with `from_model` derived as the pipeline derives it). -/
theorem noop_guard_iff (rb : List String) (am : Option String) (model : String) :
    llm_noop_condition (pipeline_from_model rb am) rb model = true ↔ rb = [model] := by
  cases rb with
  | nil => simp [llm_noop_condition, pipeline_from_model]
  | cons m rest =>
    cases rest <;> simp [llm_noop_condition, pipeline_from_model]

/-- **C1.** In the LLM switch pipeline for target model `M`, under an
environment in which every orchestration call succeeds, the no-op
short-circuit is taken if and only if `M` is already the sole running
backend container — irrespective of the persisted mode, which the branch
never consults.  When taken, a `noop` step is emitted after the
non-disruptive prefix, the error state is cleared, the active state is
confirmed (`mode=llm`, no lease), the job succeeds, and no request other
than inspections and the idempotent ComfyUI stop is issued — in
particular the gateway and the backends are neither stopped nor started.
In every other situation the pipeline proceeds to the disruptive steps
(`stop_litellm` onwards). -/
theorem C1_noop_shortcircuit (model : String) (meta : ModelMeta) (c : String) (sid : Nat)
    (r : String → Bool) (w : World)
    (hm : modelMeta? model = some meta)
    (henv : w.docker = envFor (inspectBy r) okStart okStop)
    (hjob : w.currentSwitch = none)
    (hllm : w.llm = llmAll)
    (hins : w.docker "GET" ("/containers/" ++ meta.container ++ "/json")
        = DResp.resp 200 (some (inspInfo (r meta.container))) "")
    (hstart : w.docker "POST" ("/containers/" ++ meta.container ++ "/start")
        = DResp.resp 204 none "")
    (hconf : w.templates.find? (fun t => t.1 == meta.template) = some (meta.template, c))
    (hmem : meta.litellm_model ∈ MODELS.map (fun m => m.litellm_model)) :
    (llm_noop_condition
        (pipeline_from_model (runningList r) (active_model_of w.activeModelFile))
        (runningList r) model = true ↔ runningList r = [model])
    ∧ (runningList r = [model] →
        respStatus (run_switch_pipeline model sid false w) = some "success"
        ∧ respSteps (run_switch_pipeline model sid false w) = ["preflight", "stop_comfy", "noop"]
        ∧ (finalWorld (run_switch_pipeline model sid false w)).lastError = none
        ∧ (finalWorld (run_switch_pipeline model sid false w)).activeModeFile = some "llm\n"
        ∧ (finalWorld (run_switch_pipeline model sid false w)).leaseFile = none
        ∧ ∀ e ∈ ((finalWorld (run_switch_pipeline model sid false w)).dockerLog).drop
            w.dockerLog.length, e.1 = "GET" ∨ e = ("POST", "/containers/comfyui/stop"))
    ∧ (runningList r ≠ [model] →
        respSteps (run_switch_pipeline model sid false w)
          = ["preflight", "stop_comfy", "stop_litellm", "stop_models", "start_target",
             "wait_target", "activate_config", "start_litellm", "verify_litellm"]
        ∧ respStatus (run_switch_pipeline model sid false w) = some "success") := by
  refine ⟨noop_guard_iff (runningList r) (active_model_of w.activeModelFile) model, ?_, ?_⟩
  · intro hsole
    have hguard : llm_noop_condition
        (pipeline_from_model (runningList r) (active_model_of w.activeModelFile))
        (runningList r) model = true :=
      (noop_guard_iff (runningList r) (active_model_of w.activeModelFile) model).2 hsole
    rw [run_switch_pipeline_run model sid false r w henv hjob]
    rw [attempt_ok _ (by
      rw [llm_body_run model meta sid _ _ _ r _ hm (by simp [henv]) (by simp [hjob])
        (by simpa [henv] using hins)]
      rw [if_pos hguard]
      rw [llm_noop_branch_run model sid _ _ r _ (by simp [henv]) (by simp [hjob])])]
    refine ⟨rfl, by simp [respSteps], by simp [finalWorld], by simp [finalWorld],
      by simp [finalWorld], ?_⟩
    simp only [finalWorld]
    intro e he
    simp only [List.append_assoc, List.drop_left] at he
    simp at he
    rcases he with h | h | h | h | h | h | h | h | h | h | h | h | h | h <;> simp [h]
  · intro hsole
    have hguard : ¬ (llm_noop_condition
        (pipeline_from_model (runningList r) (active_model_of w.activeModelFile))
        (runningList r) model = true) := by
      rw [noop_guard_iff]; exact hsole
    rw [run_switch_pipeline_run model sid false r w henv hjob]
    rw [attempt_ok _ (by
      rw [llm_body_run model meta sid _ _ _ r _ hm (by simp [henv]) (by simp [hjob])
        (by simpa [henv] using hins)]
      rw [if_neg hguard]
      rw [llm_main_branch_run model meta c sid _ _ r _ (by simp [henv]) (by simp [hjob])
        (by simp [hllm]) hm (by simp [hconf]) (by simpa [henv] using hstart)
        (by simpa [henv] using hins) hmem])]
    exact ⟨by simp [respSteps], rfl⟩


/-- Witness for C1 at a concrete input: target `qwen-fast`, which is the
sole running backend of the situation world. -/
theorem C1_noop_shortcircuit_witness :
    llm_noop_condition
        (pipeline_from_model (runningList (runBy true false false false))
          (active_model_of (mkSituation false true false false false none).activeModelFile))
        (runningList (runBy true false false false)) "qwen-fast" = true
      ↔ runningList (runBy true false false false) = ["qwen-fast"] :=
  (C1_noop_shortcircuit "qwen-fast"
    { id := "qwen-fast", container := "vllm-fast", template := "qwen-fast.yml",
      litellm_model := "qwen-fast" }
    "config for qwen-fast" 1 (runBy true false false false)
    (mkSituation false true false false false none)
    (by decide) rfl rfl rfl (by decide) (by decide) (by decide) (by decide)).1

/-- Counterexample to C1 as stated: in a state whose persisted mode is
`comfy` while `qwen-fast` is the sole running backend container, the
pipeline still takes the no-op short-circuit (the claim requires the
current mode to be `llm` for that, predicting the disruptive steps
here). -/
theorem C1_counterexample :
    read_mode_of (mkSituation true true false false false none).activeModeFile = MODE_COMFY
    ∧ MODE_COMFY ≠ MODE_LLM
    ∧ respSteps (run_switch_pipeline "qwen-fast" 1 false
        (mkSituation true true false false false none))
        = ["preflight", "stop_comfy", "noop"]
    ∧ respStatus (run_switch_pipeline "qwen-fast" 1 false
        (mkSituation true true false false false none)) = some "success" := by
  refine ⟨by decide, by decide, ?_, ?_⟩ <;>
  · rw [run_switch_pipeline_run "qwen-fast" 1 false (runBy true false false false)
        (mkSituation true true false false false none) rfl rfl]
    rw [attempt_ok _ (by
      rw [llm_body_run "qwen-fast"
        { id := "qwen-fast", container := "vllm-fast", template := "qwen-fast.yml",
          litellm_model := "qwen-fast" } 1 _ _ _ (runBy true false false false) _
        (by decide) (by simp [mkSituation, baseWorld]) (by simp [mkSituation, baseWorld])
        (by decide)]
      rw [if_pos (by decide)]
      rw [llm_noop_branch_run "qwen-fast" 1 _ _ (runBy true false false false) _
        (by simp [mkSituation, baseWorld]) (by simp [mkSituation, baseWorld])])]
    simp [respSteps, respStatus]


/-- The lease-renewal branch: sets the lease to `now + ttl` minutes,
confirms mode `comfy`, records the `renew_lease` step and succeeds; the
only container requests are the payload inspections. -/
theorem comfy_renewal_branch_run (ttl : Int) (sid : Nat) (fm : Option String)
    (started : Int) (r : String → Bool) (w : World)
    (henv : w.docker = envFor (inspectBy r) okStart okStop)
    (hjob : w.currentSwitch = none) :
    comfy_renewal_branch ttl sid fm started w =
      (Except.ok
        { payload := famStatus r
            { w with
              leaseFile := some (toString (w.now + ttl * 60) ++ "\n"),
              activeModeFile := some "comfy\n",
              pipeSteps := w.pipeSteps ++
                [{ step := "renew_lease", at_ := toString w.now, ok := true,
                   detail := "comfy lease renewed until " ++ toString (w.now + ttl * 60) }],
              lastError := none, lastSwitchAt := some (toString w.now) },
          switch_id := sid, status := "success", from_model := fm,
          to_model := "mode:" ++ MODE_COMFY,
          steps := w.pipeSteps ++
            [{ step := "renew_lease", at_ := toString w.now, ok := true,
               detail := "comfy lease renewed until " ++ toString (w.now + ttl * 60) }],
          duration_ms := (w.now - started) * 1000, error := none },
        { w with
          leaseFile := some (toString (w.now + ttl * 60) ++ "\n"),
          activeModeFile := some "comfy\n",
          pipeSteps := w.pipeSteps ++
            [{ step := "renew_lease", at_ := toString w.now, ok := true,
               detail := "comfy lease renewed until " ++ toString (w.now + ttl * 60) }],
          lastError := none, lastSwitchAt := some (toString w.now),
          dockerLog := w.dockerLog ++
            [("GET", "/containers/vllm-fast/json"), ("GET", "/containers/vllm-quality/json"),
             ("GET", "/containers/vllm-deepseek/json"), ("GET", "/containers/vllm-qwen32b/json"),
             ("GET", "/containers/litellm/json"), ("GET", "/containers/comfyui/json")] }) := by
  simp [comfy_renewal_branch, bind_apply, pure_apply, getWorld_apply, add_step_nojob,
    update_switch_state_nojob, set_runtime_state_clear, set_active_mode_comfy,
    clear_comfy_lease_apply, set_comfy_lease_apply, switch_response, status_payload_env r,
    monoTime_apply, World.writePath, World.removePath, hjob, henv, MODE_COMFY]



/-- Under mode `comfy`, a running ComfyUI container and no running backend,
the comfy body takes the renewal branch after the preflight. -/
theorem comfy_body_renewal (ttl : Int) (sid : Nat) (fm : Option String)
    (started : Int) (r : String → Bool) (w : World)
    (henv : w.docker = envFor (inspectBy r) okStart okStop)
    (hjob : w.currentSwitch = none)
    (hmode : read_mode_of w.activeModeFile = MODE_COMFY)
    (hc : r "comfyui" = true) :
    comfy_pipeline_body ttl sid fm [] (snapCont (r "comfyui")) started w =
      comfy_renewal_branch ttl sid fm started
        { w with
          pipeSteps := w.pipeSteps ++
            [{ step := "preflight", at_ := toString w.now, ok := true,
               detail := "target container exists: " ++ COMFY_CONTAINER }],
          dockerLog := w.dockerLog ++ [("GET", "/containers/comfyui/json")] } := by
  have hins : w.docker "GET" ("/containers/" ++ "comfyui" ++ "/json")
      = DResp.resp 200 (some (inspInfo (r "comfyui"))) "" := by
    rw [path_comfyui_json, henv, envFor_comfyui_json]; rfl
  simp [comfy_pipeline_body, bind_apply, pure_apply, add_step_nojob,
    update_switch_state_nojob, ensure_container_created_okW hins, active_mode_apply,
    comfy_renewal_condition, snapCont, hmode, hc, hjob, henv, COMFY_CONTAINER, MODE_COMFY]


/-- `run_mode_switch_pipeline` on a comfy request with a valid TTL reduced
to the `try/except` over the comfy body. -/
theorem run_mode_comfy_run (ttl : Int) (sid : Nat) (raise_http_errors : Bool)
    (source : String) (r : String → Bool) (w : World)
    (henv : w.docker = envFor (inspectBy r) okStart okStop)
    (hjob : w.currentSwitch = none)
    (hpos : ¬ ttl ≤ 0) (hmax : ¬ ttl > MAX_COMFY_TTL_MINUTES) :
    run_mode_switch_pipeline
      { mode := "comfy", model := none, ttl_minutes := some ttl, wait_for_ready := true }
      sid raise_http_errors source w =
      attempt
        (comfy_pipeline_body ttl sid
          (pipeline_from_model (runningList r) (active_model_of w.activeModelFile))
          (runningList r) (snapCont (r "comfyui")) w.now)
        (fun e =>
          match e with
          | PyErr.httpExc code detail =>
            comfy_http_handler code detail raise_http_errors sid
              (pipeline_from_model (runningList r) (active_model_of w.activeModelFile)) w.now
          | PyErr.runtimeError m =>
            comfy_exc_handler m sid
              (pipeline_from_model (runningList r) (active_model_of w.activeModelFile)) w.now
          | PyErr.otherExc m =>
            comfy_exc_handler m sid
              (pipeline_from_model (runningList r) (active_model_of w.activeModelFile)) w.now)
        { w with
          pipeSteps := [], pipeDisruptive := false,
          dockerLog := w.dockerLog ++
            [("GET", "/containers/vllm-fast/json"), ("GET", "/containers/vllm-quality/json"),
             ("GET", "/containers/vllm-deepseek/json"), ("GET", "/containers/vllm-qwen32b/json"),
             ("GET", "/containers/litellm/json"), ("GET", "/containers/comfyui/json")] } := by
  simp [run_mode_switch_pipeline, bind_apply, pure_apply, monoTime_apply, modifyWorld_apply,
    read_optional_text_apply, World.readPath, status_payload_env r, update_switch_state_nojob,
    famStatus, running_models_from_status, normalize_comfy_ttl, hpos, hmax, throwErr,
    hjob, henv, MODE_LLM, MODE_COMFY, VALID_MODES,
    (by decide : pyLower (pyStrip "comfy") = "comfy")]


/-- **C5.** When the current mode is already `comfy`, the ComfyUI
container is running and no LLM backend is running, a comfy switch with a
valid requested TTL is treated as a lease renewal: `lease_until` becomes
`now + ttl` (minutes), the job succeeds with the single `renew_lease`
step after the preflight, and no container start or stop is issued (every
request in the log delta is an inspection). -/
theorem C5_lease_renewal (ttl : Int) (sid : Nat) (r : String → Bool) (w : World)
    (henv : w.docker = envFor (inspectBy r) okStart okStop)
    (hjob : w.currentSwitch = none)
    (hmode : read_mode_of w.activeModeFile = MODE_COMFY)
    (hc : r "comfyui" = true)
    (hnone : runningList r = [])
    (hpos : 0 < ttl) (hmax : ttl ≤ MAX_COMFY_TTL_MINUTES) :
    respStatus (run_mode_switch_pipeline
        { mode := "comfy", model := none, ttl_minutes := some ttl, wait_for_ready := true }
        sid false "api" w) = some "success"
    ∧ respSteps (run_mode_switch_pipeline
        { mode := "comfy", model := none, ttl_minutes := some ttl, wait_for_ready := true }
        sid false "api" w) = ["preflight", "renew_lease"]
    ∧ (finalWorld (run_mode_switch_pipeline
        { mode := "comfy", model := none, ttl_minutes := some ttl, wait_for_ready := true }
        sid false "api" w)).leaseFile = some (toString (w.now + ttl * 60) ++ "\n")
    ∧ ∀ e ∈ ((finalWorld (run_mode_switch_pipeline
        { mode := "comfy", model := none, ttl_minutes := some ttl, wait_for_ready := true }
        sid false "api" w)).dockerLog).drop w.dockerLog.length, e.1 = "GET" := by
  rw [run_mode_comfy_run ttl sid false "api" r w henv hjob (by omega) (by omega)]
  rw [attempt_ok _ (by
    rw [show runningList r = [] from hnone] at *
    rw [comfy_body_renewal ttl sid _ _ r _ (by simp [henv]) (by simp [hjob])
      (by simpa using hmode) hc]
    rw [comfy_renewal_branch_run ttl sid _ _ r _ (by simp [henv]) (by simp [hjob])])]
  refine ⟨rfl, by simp [respSteps], by simp [finalWorld], ?_⟩
  simp only [finalWorld]
  simp only [List.append_assoc, List.drop_left]
  decide


/-- A comfy-mode world with ComfyUI running and no backend running, used
as the C5 witness input. -/
def comfyWorld : World :=
  { baseWorld with
    activeModeFile := some "comfy\n",
    leaseFile := some "2000\n",
    docker := envFor (inspectBy (fun n => n == "comfyui")) okStart okStop,
    llm := llmAll }

/-- Witness for C5 at a concrete input (TTL 15 minutes). -/
theorem C5_lease_renewal_witness :
    respStatus (run_mode_switch_pipeline
        { mode := "comfy", model := none, ttl_minutes := some 15, wait_for_ready := true }
        1 false "api" comfyWorld) = some "success" :=
  (C5_lease_renewal 15 1 (fun n => n == "comfyui") comfyWorld rfl rfl (by decide) (by decide)
    (by decide) (by decide) (by decide)).1


/-- **C8.** Reads of the Active-State Store are defaulted: a missing mode
file, or one whose content does not normalise to a valid mode, reads as
the default mode `llm`; a missing lease file, or one whose content does
not parse as a timestamp, reads as an absent lease. -/
theorem C8_defaulted_reads :
    (∀ w : World, w.activeModeFile = none → active_mode w = (Except.ok MODE_LLM, w))
    ∧ (∀ (w : World) (s : String), w.activeModeFile = some s →
        pyLower (pyStrip s) ∉ VALID_MODES → active_mode w = (Except.ok MODE_LLM, w))
    ∧ (∀ w : World, w.leaseFile = none → comfy_lease_until w = (Except.ok none, w))
    ∧ (∀ (w : World) (s : String), w.leaseFile = some s → parse_utc_iso s = none →
        comfy_lease_until w = (Except.ok none, w)) := by
  refine ⟨?_, ?_, ?_, ?_⟩
  · intro w h
    simp [active_mode, read_optional_text_apply, bind_apply, pure_apply, World.readPath, h]
  · intro w s h hbad
    simp [active_mode, read_optional_text_apply, bind_apply, pure_apply, World.readPath,
      h, hbad]
  · intro w h
    simp [comfy_lease_until, read_optional_text_apply, bind_apply, pure_apply,
      World.readPath, h]
  · intro w s h hbad
    simp [comfy_lease_until, read_optional_text_apply, bind_apply, pure_apply,
      World.readPath, h, hbad]

/-- Witness for C8 on concrete corrupt contents. -/
theorem C8_defaulted_reads_witness :
    active_mode { baseWorld with activeModeFile := some "bogus", leaseFile := some "not a date" }
        = (Except.ok MODE_LLM,
            { baseWorld with activeModeFile := some "bogus", leaseFile := some "not a date" })
    ∧ comfy_lease_until
        { baseWorld with activeModeFile := some "bogus", leaseFile := some "not a date" }
        = (Except.ok none,
            { baseWorld with activeModeFile := some "bogus", leaseFile := some "not a date" }) :=
  ⟨C8_defaulted_reads.2.1 _ "bogus" rfl (by decide),
   C8_defaulted_reads.2.2.2 _ "not a date" rfl (by decide)⟩

/-- **C9.** Updating the switch-job record with a `switch_id` that is not
the current job id is a no-op, and ids issued by `create_switch_state`
are strictly increasing, so an update carrying an older job id can never
mutate the current record. -/
theorem C9_stale_update_noop :
    (∀ (w : World) (sid : Nat) (a : UpdateArgs), w.currentSwitch = none →
        update_switch_state sid a w = (Except.ok (), w))
    ∧ (∀ (w : World) (sid : Nat) (a : UpdateArgs) (j : Job), w.currentSwitch = some j →
        j.id ≠ sid → update_switch_state sid a w = (Except.ok (), w))
    ∧ (∀ (w : World) (tm st stx : String) (fm cs : Option String) (sid : Nat)
        (a : UpdateArgs), sid ≤ w.switchIdSeq →
        update_switch_state sid a (create_switch_state tm st stx fm cs w).2
          = (Except.ok (), (create_switch_state tm st stx fm cs w).2)) := by
  refine ⟨?_, ?_, ?_⟩
  · intro w sid a h
    simp [update_switch_state, h]
  · intro w sid a j h hne
    simp [update_switch_state, h, hne]
  · intro w tm st stx fm cs sid a hle
    rw [create_switch_state_apply]
    have hne : w.switchIdSeq + 1 ≠ sid := by omega
    simp [update_switch_state, hne]

/-- Witness for C9: a queued job with id 2 ignores an update for id 1. -/
theorem C9_stale_update_noop_witness :
    update_switch_state 1 noUpdate
        (create_switch_state "deepseek" "queued" "q" none none
          { baseWorld with switchIdSeq := 1 }).2
      = (Except.ok (),
          (create_switch_state "deepseek" "queued" "q" none none
            { baseWorld with switchIdSeq := 1 }).2) :=
  C9_stale_update_noop.2.2 { baseWorld with switchIdSeq := 1 } "deepseek" "queued" "q"
    none none 1 noUpdate (by decide)

/-- **C10.** The reported lease status: when the lease parses, the payload
reports the exact expiry, the remaining time clamped below at zero, and
`expired` exactly when the unclamped remaining time is nonpositive; when
the lease is missing or unparseable, all fields are null/false. -/
theorem C10_lease_status (w : World) :
    comfy_lease_status w = (Except.ok (lease_status_of w.leaseFile w.now), w)
    ∧ (∀ (s : String) (t : Int), w.leaseFile = some s → parse_utc_iso s = some t →
        lease_status_of w.leaseFile w.now =
          { expires_at := some (toString t),
            remaining_seconds := some (max (t - w.now) 0),
            expired := decide (t - w.now ≤ 0) }
        ∧ 0 ≤ max (t - w.now) 0
        ∧ ((max (t - w.now) 0 = 0) ↔ t - w.now ≤ 0))
    ∧ ((w.leaseFile = none ∨ ∃ s, w.leaseFile = some s ∧ parse_utc_iso s = none) →
        lease_status_of w.leaseFile w.now =
          { expires_at := none, remaining_seconds := none, expired := false }) := by
  refine ⟨comfy_lease_status_apply w, ?_, ?_⟩
  · intro s t hs ht
    refine ⟨by simp [lease_status_of, hs, ht], le_max_right _ _, ?_⟩
    constructor
    · intro h
      by_contra hlt
      have : 0 < t - w.now := by omega
      have := le_max_left (t - w.now) 0
      omega
    · intro h
      omega
  · rintro (h | ⟨s, hs, hp⟩)
    · simp [lease_status_of, h]
    · simp [lease_status_of, hs, hp]

/-- Witness for C10: an expired lease (expiry 900, clock 1000) reports
zero remaining seconds and `expired`. -/
theorem C10_lease_status_witness :
    lease_status_of (some "900\n") 1000 =
      { expires_at := some (toString (900 : Int)),
        remaining_seconds := some (max ((900 : Int) - 1000) 0),
        expired := decide ((900 : Int) - 1000 ≤ 0) }
    ∧ (0 : Int) ≤ max ((900 : Int) - 1000) 0
    ∧ ((max ((900 : Int) - 1000) 0 = 0) ↔ (900 : Int) - 1000 ≤ 0) :=
  (C10_lease_status { baseWorld with leaseFile := some "900\n" }).2.1 "900\n" 900 rfl
    (by decide)


/-- A gateway response that the probe loop retries on: a transport error,
or any HTTP status other than 200/401/403. -/
def llm_retryable (resp : LResp) : Prop :=
  resp = LResp.exn ∨
    ∃ code body, resp = LResp.resp code body ∧ code ≠ 200 ∧ code ≠ 401 ∧ code ≠ 403

/-- If every probe is retryable, the loop polls until its fuel runs out
and fails with the deadline message naming the sought model. -/
theorem wait_litellm_go_retry (model : String) (fuel : Nat) :
    ∀ w : World, (∀ n, llm_retryable (w.llm n)) →
      wait_litellm_go model fuel w =
        (Except.error
            (PyErr.runtimeError ("litellm did not expose model " ++ model ++ " in time")),
          { w with llmPolls := w.llmPolls + fuel }) := by
  induction fuel with
  | zero => intro w hret; simp [wait_litellm_go, throwErr]
  | succ k ih =>
    intro w hret
    have hstep : wait_litellm_go model (k + 1) w
        = wait_litellm_go model k { w with llmPolls := w.llmPolls + 1 } := by
      rcases hret w.llmPolls with h | ⟨code, body, hr, h200, h401, h403⟩
      · simp [wait_litellm_go, litellm_get_apply, bind_apply, h]
      · simp [wait_litellm_go, litellm_get_apply, bind_apply, hr, h200, h401, h403]
    rw [hstep, ih { w with llmPolls := w.llmPolls + 1 } (fun n => hret n)]
    have : w.llmPolls + 1 + k = w.llmPolls + (k + 1) := by omega
    rw [this]

/-- **C3 (amended).** For `wait_litellm_model model timeout`: an HTTP 401
or 403 makes it fail immediately with the auth message; every other
non-200 status and every transport error makes it retry until the
deadline, after which it fails with a message naming the sought model;
and a 200 response whose body fails to parse as JSON raises immediately
out of the probe (the `response.json()` call sits outside the
`try/except RequestException`), rather than being retried. -/
theorem C3_gateway_probe (model : String) (timeout : Nat) (w : World)
    (htime : 2 ≤ timeout) :
    (∀ code body, w.llm w.llmPolls = LResp.resp code body → (code = 401 ∨ code = 403) →
      wait_litellm_model model timeout w =
        (Except.error (PyErr.runtimeError "litellm auth failed while verifying model list"),
          { w with llmPolls := w.llmPolls + 1 }))
    ∧ ((∀ n, llm_retryable (w.llm n)) →
      wait_litellm_model model timeout w =
        (Except.error
            (PyErr.runtimeError ("litellm did not expose model " ++ model ++ " in time")),
          { w with llmPolls := w.llmPolls + timeout / POLL_INTERVAL_SECONDS }))
    ∧ (w.llm w.llmPolls = LResp.resp 200 none →
      wait_litellm_model model timeout w =
        (Except.error (PyErr.otherExc "response body is not valid json"),
          { w with llmPolls := w.llmPolls + 1 })) := by
  have h1 : 1 ≤ timeout / POLL_INTERVAL_SECONDS := by
    rw [show POLL_INTERVAL_SECONDS = 2 from rfl]
    omega
  obtain ⟨k, hk⟩ : ∃ k, timeout / POLL_INTERVAL_SECONDS = k + 1 :=
    ⟨timeout / POLL_INTERVAL_SECONDS - 1, by omega⟩
  refine ⟨?_, ?_, ?_⟩
  · intro code body hr hauth
    rw [wait_litellm_model, hk]
    rcases hauth with h | h <;>
      simp [wait_litellm_go, litellm_get_apply, bind_apply, hr, h, throwErr]
  · intro hret
    rw [wait_litellm_model, wait_litellm_go_retry model _ w hret]
  · intro hr
    rw [wait_litellm_model, hk]
    simp [wait_litellm_go, litellm_get_apply, bind_apply, hr, throwErr]

/-- Witness for C3 (amended) at concrete inputs: a 503-then-503 inventory
makes a 4-second probe poll twice and fail with the deadline message. -/
theorem C3_gateway_probe_witness :
    wait_litellm_model "qwen-fast" 4
        { baseWorld with llm := fun _ => LResp.resp 503 none } =
      (Except.error
          (PyErr.runtimeError ("litellm did not expose model " ++ "qwen-fast" ++ " in time")),
        { { baseWorld with llm := fun _ => LResp.resp 503 none } with
          llmPolls := ({ baseWorld with llm := fun _ => LResp.resp 503 none } : World).llmPolls
            + 4 / POLL_INTERVAL_SECONDS }) :=
  (C3_gateway_probe "qwen-fast" 4 { baseWorld with llm := fun _ => LResp.resp 503 none }
    (by decide)).2.1
    (fun n => Or.inr ⟨503, none, rfl, by decide, by decide, by decide⟩)

/-- An inventory environment whose first probe is a 200 response with an
unparseable body, while every later probe exposes `qwen-fast`. -/
def c3World : World :=
  { baseWorld with
    llm := fun n =>
      if n == 0 then LResp.resp 200 none
      else LResp.resp 200 (some (LJson.dict [LItem.item (some "qwen-fast")])) }

/-- Counterexample to C3 as stated: the first probe returns HTTP 200 with
an unparseable body while the next probe would expose the model; the
claim predicts a retry (and success on the next poll), but the code
raises immediately after a single poll. -/
theorem C3_counterexample :
    wait_litellm_model "qwen-fast" 90 c3World =
      (Except.error (PyErr.otherExc "response body is not valid json"),
        { c3World with llmPolls := 1 }) := by
  have h0 : c3World.llmPolls = 0 := rfl
  have hr : c3World.llm 0 = LResp.resp 200 none := rfl
  show wait_litellm_go "qwen-fast" (44 + 1) c3World = _
  rw [wait_litellm_go]
  simp only [bind_apply, litellm_get_apply, h0, hr]
  simp [throwErr]


/-- **C4.** Validation of `POST /mode/switch`: every invalid request --
unknown mode, mode llm with `ttl_minutes` present, mode llm with an
unknown model id, mode comfy with a non-blank `model`, or mode comfy with
`ttl_minutes` outside `(0, MAX_COMFY_TTL_MINUTES]` -- fails with an
`HTTPException 400` and leaves the world (in particular the mode file,
active-model file, staged config and lease file) unchanged; and when
`ttl_minutes` is absent the TTL normaliser yields the default of 45
minutes without touching the world. -/
theorem C4_validation (req : ModeSwitchRequest) (w : World) :
    (pyLower (pyStrip req.mode) ∉ VALID_MODES →
      mode_switch req w = (Except.error (PyErr.httpExc 400 "unknown mode"), w))
    ∧ (pyLower (pyStrip req.mode) = MODE_LLM → req.ttl_minutes ≠ none →
      mode_switch req w =
        (Except.error (PyErr.httpExc 400 "ttl_minutes is only valid for mode=comfy"), w))
    ∧ (pyLower (pyStrip req.mode) = MODE_LLM → req.ttl_minutes = none →
      ∀ s, req.model = some s → (modelMeta? (pyStrip s)).isNone →
      mode_switch req w = (Except.error (PyErr.httpExc 400 "unknown model"), w))
    ∧ (pyLower (pyStrip req.mode) = MODE_COMFY →
      ∀ s, req.model = some s → pyStrip s ≠ "" →
      mode_switch req w =
        (Except.error (PyErr.httpExc 400 "model is only valid for mode=llm"), w))
    ∧ (pyLower (pyStrip req.mode) = MODE_COMFY →
      (req.model = none ∨ ∃ s, req.model = some s ∧ pyStrip s = "") →
      ∀ t, req.ttl_minutes = some t → t ≤ 0 →
      mode_switch req w =
        (Except.error (PyErr.httpExc 400 "ttl_minutes must be greater than 0"), w))
    ∧ (pyLower (pyStrip req.mode) = MODE_COMFY →
      (req.model = none ∨ ∃ s, req.model = some s ∧ pyStrip s = "") →
      ∀ t, req.ttl_minutes = some t → MAX_COMFY_TTL_MINUTES < t →
      mode_switch req w =
        (Except.error
            (PyErr.httpExc 400 ("ttl_minutes must be <= " ++ toString MAX_COMFY_TTL_MINUTES)), w))
    ∧ (normalize_comfy_ttl none w = (Except.ok DEFAULT_COMFY_TTL_MINUTES, w)
        ∧ DEFAULT_COMFY_TTL_MINUTES = 45) := by
  refine ⟨?_, ?_, ?_, ?_, ?_, ?_, rfl, rfl⟩
  · intro hmode
    simp [mode_switch, bind_apply, throwErr_apply, hmode]
  · intro hmode httl
    cases ht : req.ttl_minutes with
    | none => exact absurd ht httl
    | some t =>
      simp [mode_switch, bind_apply, throwErr_apply, hmode, MODE_LLM, VALID_MODES, MODE_COMFY,
        ht]
  · intro hmode httl s hs hmeta
    simp [mode_switch, bind_apply, throwErr_apply, pure_apply, resolve_llm_model, hmode, httl,
      hs, hmeta, MODE_LLM, VALID_MODES, MODE_COMFY]
  · intro hmode s hs hblank
    simp [mode_switch, bind_apply, throwErr_apply, pure_apply, hmode, hs, hblank, MODE_LLM,
      VALID_MODES, MODE_COMFY]
  · intro hmode hblank t ht hle
    have hif : ¬ MAX_COMFY_TTL_MINUTES < t := by
      rw [show MAX_COMFY_TTL_MINUTES = (90 : Int) from rfl]; omega
    rcases hblank with h | ⟨s, hs, hb⟩
    · simp [mode_switch, bind_apply, throwErr_apply, pure_apply, normalize_comfy_ttl, hmode,
        h, ht, hle, hif, MODE_LLM, VALID_MODES, MODE_COMFY]
    · simp [mode_switch, bind_apply, throwErr_apply, pure_apply, normalize_comfy_ttl, hmode,
        hs, hb, ht, hle, hif, MODE_LLM, VALID_MODES, MODE_COMFY]
  · intro hmode hblank t ht hgt
    have hif : ¬ t ≤ 0 := by
      have : (0 : Int) < MAX_COMFY_TTL_MINUTES := by decide
      omega
    rcases hblank with h | ⟨s, hs, hb⟩
    · simp [mode_switch, bind_apply, throwErr_apply, pure_apply, normalize_comfy_ttl, hmode,
        h, ht, hgt, hif, MODE_LLM, VALID_MODES, MODE_COMFY]
    · simp [mode_switch, bind_apply, throwErr_apply, pure_apply, normalize_comfy_ttl, hmode,
        hs, hb, ht, hgt, hif, MODE_LLM, VALID_MODES, MODE_COMFY]

/-- Witness for C4 at concrete requests against the base world: one
rejected request per invalid shape, plus the defaulted TTL. -/
theorem C4_validation_witness :
    mode_switch ⟨"batch", none, none, false⟩ baseWorld =
        (Except.error (PyErr.httpExc 400 "unknown mode"), baseWorld)
    ∧ mode_switch ⟨" LLM ", none, some 10, false⟩ baseWorld =
        (Except.error (PyErr.httpExc 400 "ttl_minutes is only valid for mode=comfy"), baseWorld)
    ∧ mode_switch ⟨"llm", some "nope", none, false⟩ baseWorld =
        (Except.error (PyErr.httpExc 400 "unknown model"), baseWorld)
    ∧ mode_switch ⟨"comfy", some "qwen-fast", none, false⟩ baseWorld =
        (Except.error (PyErr.httpExc 400 "model is only valid for mode=llm"), baseWorld)
    ∧ mode_switch ⟨"comfy", none, some 0, false⟩ baseWorld =
        (Except.error (PyErr.httpExc 400 "ttl_minutes must be greater than 0"), baseWorld)
    ∧ mode_switch ⟨"comfy", some "  ", some 91, false⟩ baseWorld =
        (Except.error
            (PyErr.httpExc 400 ("ttl_minutes must be <= " ++ toString MAX_COMFY_TTL_MINUTES)),
          baseWorld)
    ∧ normalize_comfy_ttl none baseWorld = (Except.ok 45, baseWorld) := by
  refine ⟨?_, ?_, ?_, ?_, ?_, ?_, ?_⟩
  · exact (C4_validation _ baseWorld).1 (by decide)
  · exact (C4_validation _ baseWorld).2.1 (by decide) (by simp)
  · exact (C4_validation _ baseWorld).2.2.1 (by decide) rfl "nope" rfl (by decide)
  · exact (C4_validation _ baseWorld).2.2.2.1 (by decide) "qwen-fast" rfl (by decide)
  · exact (C4_validation _ baseWorld).2.2.2.2.1 (by decide) (Or.inl rfl) 0 rfl (by decide)
  · exact (C4_validation _ baseWorld).2.2.2.2.2.1 (by decide) (Or.inr ⟨"  ", rfl, by decide⟩)
      91 rfl (by decide)
  · exact (C4_validation ⟨"x", none, none, false⟩ baseWorld).2.2.2.2.2.2.1


/-- **C7.** `GET /healthz/ready` succeeds with `("ready", a)` exactly when
the active mode is llm, exactly one backend model is running, an active
model is configured (non-blank), and the running backend matches it; in
every other situation the decision is an `HTTPException 503`; and the
endpoint returns exactly the decision taken on the freshly computed
status payload. -/
theorem C7_ready (payload : Status) (a : String) (w w1 : World) (st : Status) :
    (ready_decision payload = Except.ok ("ready", a) ↔
      payload.active_mode = MODE_LLM ∧ running_models_from_status payload = [a]
        ∧ payload.active_model = some a ∧ a ≠ "")
    ∧ ((¬ (payload.active_mode = MODE_LLM ∧ ∃ b, running_models_from_status payload = [b]
            ∧ payload.active_model = some b ∧ b ≠ "")) →
        ∃ d, ready_decision payload = Except.error (PyErr.httpExc 503 d))
    ∧ (status_payload w = (Except.ok st, w1) → ready w = (ready_decision st, w1)) := by
  refine ⟨⟨?_, ?_⟩, ?_, ?_⟩
  · intro h
    simp only [ready_decision] at h
    by_cases hm : payload.active_mode = MODE_LLM
    · by_cases hl : (running_models_from_status payload).length = 1
      · cases ham : payload.active_model with
        | none => rw [ham] at h; simp [hm, hl] at h
        | some c =>
          rw [ham] at h
          by_cases hc : c = ""
          · simp [hm, hl, hc] at h
          · by_cases hd : (running_models_from_status payload).head?.getD "" = c
            · simp [hm, hl, hc, hd] at h
              have hrun : running_models_from_status payload = [c] := by
                cases hh : running_models_from_status payload with
                | nil => rw [hh] at hl; simp at hl
                | cons x xs =>
                  cases xs with
                  | nil => rw [hh] at hd; simp at hd; rw [hd]
                  | cons y ys => rw [hh] at hl; simp at hl
              subst h
              exact ⟨hm, hrun, rfl, hc⟩
            · simp [hm, hl, hc, hd] at h
      · simp [hm, hl] at h
    · simp [hm] at h
  · rintro ⟨hm, hr, ham, hne⟩
    simp [ready_decision, hm, hr, ham, hne]
  · intro hno
    by_cases hm : payload.active_mode = MODE_LLM
    · by_cases hl : (running_models_from_status payload).length = 1
      · cases ham : payload.active_model with
        | none =>
          exact ⟨"no active model configured", by simp [ready_decision, hm, hl, ham]⟩
        | some c =>
          by_cases hc : c = ""
          · exact ⟨"no active model configured", by simp [ready_decision, hm, hl, ham, hc]⟩
          · by_cases hd : (running_models_from_status payload).head?.getD "" = c
            · exfalso
              apply hno
              have hrun : running_models_from_status payload = [c] := by
                cases hh : running_models_from_status payload with
                | nil => rw [hh] at hl; simp at hl
                | cons x xs =>
                  cases xs with
                  | nil => rw [hh] at hd; simp at hd; rw [hd]
                  | cons y ys => rw [hh] at hl; simp at hl
              exact ⟨hm, c, hrun, ham, hc⟩
            · exact ⟨"active model does not match running model",
                by simp [ready_decision, hm, hl, ham, hc, hd]⟩
      · exact ⟨"expected exactly one running model", by simp [ready_decision, hm, hl]⟩
    · exact ⟨"llm mode is not active", by simp [ready_decision, hm]⟩
  · intro hs
    cases hdec : ready_decision st with
    | ok r => simp [ready, bind_apply, hs, hdec, pure_apply]
    | error e => simp [ready, bind_apply, hs, hdec, throwErr_apply]

/-- Witness for C7: a world with one running backend matching the active
model in llm mode is ready; an idle world is rejected with a 503; and the
endpoint on the former world returns the decision on its payload. -/
theorem C7_ready_witness :
    ready_decision (famStatus (runBy true false false false)
        (mkSituation false true false false false (some "qwen-fast")))
      = Except.ok ("ready", "qwen-fast")
    ∧ (∃ d, ready_decision (famStatus (runBy false false false false) baseWorld)
        = Except.error (PyErr.httpExc 503 d))
    ∧ ready (mkSituation false true false false false (some "qwen-fast"))
      = (ready_decision (famStatus (runBy true false false false)
            (mkSituation false true false false false (some "qwen-fast"))),
          { mkSituation false true false false false (some "qwen-fast") with
            dockerLog :=
              [("GET", "/containers/vllm-fast/json"), ("GET", "/containers/vllm-quality/json"),
                ("GET", "/containers/vllm-deepseek/json"),
                ("GET", "/containers/vllm-qwen32b/json"),
                ("GET", "/containers/litellm/json"), ("GET", "/containers/comfyui/json")] }) := by
  refine ⟨?_, ?_, ?_⟩
  · exact (C7_ready (famStatus (runBy true false false false)
        (mkSituation false true false false false (some "qwen-fast"))) "qwen-fast"
        baseWorld baseWorld (famStatus (runBy true false false false) baseWorld)).1.mpr
      ⟨by decide, by decide, by decide, by decide⟩
  · exact (C7_ready (famStatus (runBy false false false false) baseWorld) ""
        baseWorld baseWorld (famStatus (runBy false false false false) baseWorld)).2.1
      (by
        rintro ⟨-, b, hb, -⟩
        simp [running_models_from_status, famStatus, runningList, runBy] at hb)
  · have henv : (mkSituation false true false false false (some "qwen-fast")).docker
        = envFor (inspectBy (runBy true false false false)) okStart okStop := rfl
    exact (C7_ready (famStatus (runBy true false false false)
        (mkSituation false true false false false (some "qwen-fast"))) "qwen-fast"
        (mkSituation false true false false false (some "qwen-fast"))
        ({ mkSituation false true false false false (some "qwen-fast") with
            dockerLog :=
              [("GET", "/containers/vllm-fast/json"), ("GET", "/containers/vllm-quality/json"),
                ("GET", "/containers/vllm-deepseek/json"),
                ("GET", "/containers/vllm-qwen32b/json"),
                ("GET", "/containers/litellm/json"), ("GET", "/containers/comfyui/json")] })
        (famStatus (runBy true false false false)
          (mkSituation false true false false false (some "qwen-fast")))).2.2
      (status_payload_env (runBy true false false false) henv)


theorem container_json_200W {w0 : World} {name : String} {i : ContainerInfo} {txt : String}
    (h : w0.docker "GET" ("/containers/" ++ name ++ "/json") = DResp.resp 200 (some i) txt)
    (w : World) (hw : w.docker = w0.docker) :
    container_json name w =
      (Except.ok (some i),
        { w with dockerLog := w.dockerLog ++ [("GET", "/containers/" ++ name ++ "/json")] }) := by
  have h2 : w.docker "GET" ("/containers/" ++ name ++ "/json") = DResp.resp 200 (some i) txt := by
    rw [hw]; exact h
  exact container_json_200 h2

/-- A gateway that keeps answering 503 makes the 90-second probe poll 45
times and fail with the deadline message. -/
theorem wait_litellm_503W (model : String) (w : World)
    (hw : w.llm = fun _ => LResp.resp 503 none) :
    wait_litellm_model model 90 w =
      (Except.error
          (PyErr.runtimeError ("litellm did not expose model " ++ model ++ " in time")),
        { w with llmPolls := w.llmPolls + 45 }) := by
  have hret : ∀ n, llm_retryable (w.llm n) := by
    intro n
    exact Or.inr ⟨503, none, by rw [hw], by decide, by decide, by decide⟩
  exact wait_litellm_go_retry model 45 w hret

/-- Full effect of the rollback block when every orchestration call
succeeds, the previous container probes healthy, and the gateway exposes
the previous model: the staged config and model file are restored to the
given previous values, all backends are stopped, the previous backend is
started and awaited, the gateway is started and the previous model
verified, and the active state ends at mode llm with no lease. -/
theorem llm_rollback_block_run (fm : String) (meta : ModelMeta) (sid : Nat)
    (pc pm : Option String) (r : String → Bool) (w : World)
    (hm : modelMeta? fm = some meta)
    (henv : w.docker = envFor (inspectBy r) okStart okStop)
    (hjob : w.currentSwitch = none)
    (hllm : w.llm = llmAll)
    (hstart : envFor (inspectBy r) okStart okStop "POST"
        ("/containers/" ++ meta.container ++ "/start") = DResp.resp 204 none "")
    (hwait : envFor (inspectBy r) okStart okStop "GET"
        ("/containers/" ++ meta.container ++ "/json")
        = DResp.resp 200 (some (inspInfo (r meta.container))) "")
    (hmem : meta.litellm_model ∈ MODELS.map (fun m => m.litellm_model)) :
    llm_rollback_block fm sid pc pm w =
      (Except.ok (),
        { w with
          activeConfigFile := pc, activeModelFile := pm,
          activeModeFile := some "llm\n", leaseFile := none,
          llmPolls := w.llmPolls + 1,
          pipeSteps := w.pipeSteps ++
            [{ step := "rollback_restore_config", at_ := toString w.now, ok := true,
               detail := "active config restored" },
             { step := "rollback_stop_models", at_ := toString w.now, ok := true,
               detail := "all vllm containers stopped" },
             { step := "rollback_start_previous", at_ := toString w.now, ok := true,
               detail := "restored " ++ fm },
             { step := "rollback_litellm", at_ := toString w.now, ok := true,
               detail := "litellm restored" }],
          dockerLog := w.dockerLog ++
            [("POST", "/containers/vllm-fast/stop"), ("POST", "/containers/vllm-quality/stop"),
             ("POST", "/containers/vllm-deepseek/stop"), ("POST", "/containers/vllm-qwen32b/stop"),
             ("GET", "/containers/" ++ meta.container ++ "/json"),
             ("POST", "/containers/" ++ meta.container ++ "/start"),
             ("GET", "/containers/" ++ meta.container ++ "/json"),
             ("POST", "/containers/litellm/start")] }) := by
  have hm2 : modelMeta? fm = some meta := hm
  have hstartW : w.docker "POST" ("/containers/" ++ meta.container ++ "/start")
      = DResp.resp 204 none "" := by rw [henv]; exact hstart
  have hwaitW : w.docker "GET" ("/containers/" ++ meta.container ++ "/json")
      = DResp.resp 200 (some (inspInfo (r meta.container))) "" := by rw [henv]; exact hwait
  rcases pc with _ | c <;> rcases pm with _ | m <;>
    simp [llm_rollback_block, restore_active_files, bind_apply, pure_apply, getWorld_apply,
      modifyWorld_apply, write_text_apply, remove_file_apply, add_step_nojob,
      update_switch_state_nojob, set_active_mode_llm, clear_comfy_lease_apply,
      stop_models_env r, container_json_200W hwaitW, container_start_204W hstartW,
      wait_ready_inspW hwaitW, start_env_litellm r,
      wait_litellm_llmAll_90 meta.litellm_model hmem, hmem,
      World.writePath, World.removePath, hjob, henv, hllm, hm2,
      LITELLM_CONTAINER, MODE_LLM, MODE_COMFY, HEALTH_TIMEOUT_SECONDS,
      LITELLM_VERIFY_TIMEOUT_SECONDS]


/-- Full effect of the `except Exception` handler when the rollback guard
holds (disruptive boundary crossed, previous model known and distinct)
and every rollback substep succeeds: the job ends `rolled_back` with the
primary error recorded, the previous config and model restored, mode llm
and no lease. -/
theorem llm_exc_handler_rollback_ok (msg model fm : String) (meta : ModelMeta) (sid : Nat)
    (pc pm : Option String) (started : Int) (r : String → Bool) (w : World)
    (hm : modelMeta? fm = some meta)
    (henv : w.docker = envFor (inspectBy r) okStart okStop)
    (hjob : w.currentSwitch = none)
    (hllm : w.llm = llmAll)
    (hstart : envFor (inspectBy r) okStart okStop "POST"
        ("/containers/" ++ meta.container ++ "/start") = DResp.resp 204 none "")
    (hwait : envFor (inspectBy r) okStart okStop "GET"
        ("/containers/" ++ meta.container ++ "/json")
        = DResp.resp 200 (some (inspInfo (r meta.container))) "")
    (hmem : meta.litellm_model ∈ MODELS.map (fun m => m.litellm_model))
    (hdisr : w.pipeDisruptive = true)
    (hblank : fm ≠ "")
    (hne : fm ≠ model) :
    llm_exc_handler msg model sid (some fm) pc pm started w =
      (Except.ok
        { payload := famStatus r
            { w with
              activeConfigFile := pc, activeModelFile := pm,
              activeModeFile := some "llm\n", leaseFile := none,
              llmPolls := w.llmPolls + 1,
              lastError := some msg, lastSwitchAt := some (toString w.now),
              pipeSteps := w.pipeSteps ++
                [{ step := "switch_error", at_ := toString w.now, ok := false, detail := msg },
                 { step := "rollback_restore_config", at_ := toString w.now, ok := true,
                   detail := "active config restored" },
                 { step := "rollback_stop_models", at_ := toString w.now, ok := true,
                   detail := "all vllm containers stopped" },
                 { step := "rollback_start_previous", at_ := toString w.now, ok := true,
                   detail := "restored " ++ fm },
                 { step := "rollback_litellm", at_ := toString w.now, ok := true,
                   detail := "litellm restored" }],
              dockerLog := w.dockerLog ++
                [("POST", "/containers/vllm-fast/stop"), ("POST", "/containers/vllm-quality/stop"),
                 ("POST", "/containers/vllm-deepseek/stop"), ("POST", "/containers/vllm-qwen32b/stop"),
                 ("GET", "/containers/" ++ meta.container ++ "/json"),
                 ("POST", "/containers/" ++ meta.container ++ "/start"),
                 ("GET", "/containers/" ++ meta.container ++ "/json"),
                 ("POST", "/containers/litellm/start")] },
          switch_id := sid, status := "rolled_back", from_model := some fm, to_model := model,
          steps := w.pipeSteps ++
            [{ step := "switch_error", at_ := toString w.now, ok := false, detail := msg },
             { step := "rollback_restore_config", at_ := toString w.now, ok := true,
               detail := "active config restored" },
             { step := "rollback_stop_models", at_ := toString w.now, ok := true,
               detail := "all vllm containers stopped" },
             { step := "rollback_start_previous", at_ := toString w.now, ok := true,
               detail := "restored " ++ fm },
             { step := "rollback_litellm", at_ := toString w.now, ok := true,
               detail := "litellm restored" }],
          duration_ms := (w.now - started) * 1000, error := some msg },
        { w with
          activeConfigFile := pc, activeModelFile := pm,
          activeModeFile := some "llm\n", leaseFile := none,
          llmPolls := w.llmPolls + 1,
          lastError := some msg, lastSwitchAt := some (toString w.now),
          pipeSteps := w.pipeSteps ++
            [{ step := "switch_error", at_ := toString w.now, ok := false, detail := msg },
             { step := "rollback_restore_config", at_ := toString w.now, ok := true,
               detail := "active config restored" },
             { step := "rollback_stop_models", at_ := toString w.now, ok := true,
               detail := "all vllm containers stopped" },
             { step := "rollback_start_previous", at_ := toString w.now, ok := true,
               detail := "restored " ++ fm },
             { step := "rollback_litellm", at_ := toString w.now, ok := true,
               detail := "litellm restored" }],
          dockerLog := w.dockerLog ++
            [("POST", "/containers/vllm-fast/stop"), ("POST", "/containers/vllm-quality/stop"),
             ("POST", "/containers/vllm-deepseek/stop"), ("POST", "/containers/vllm-qwen32b/stop"),
             ("GET", "/containers/" ++ meta.container ++ "/json"),
             ("POST", "/containers/" ++ meta.container ++ "/start"),
             ("GET", "/containers/" ++ meta.container ++ "/json"),
             ("POST", "/containers/litellm/start"),
             ("GET", "/containers/vllm-fast/json"), ("GET", "/containers/vllm-quality/json"),
             ("GET", "/containers/vllm-deepseek/json"), ("GET", "/containers/vllm-qwen32b/json"),
             ("GET", "/containers/litellm/json"), ("GET", "/containers/comfyui/json")] }) := by
  have hm2 : modelMeta? fm = some meta := hm
  simp [llm_exc_handler, bind_apply, pure_apply, getWorld_apply, add_step_nojob,
    update_switch_state_nojob, set_runtime_state_err, switch_response, status_payload_env r,
    monoTime_apply, attempt, llm_rollback_block_run fm meta sid pc pm r,
    llm_rollback_condition, hdisr, hne, hblank, hjob, henv, hllm, hm2, hstart, hwait, hmem,
    World.writePath, World.removePath, MODE_LLM]


/-- Effect of the `except Exception` handler when the rollback guard holds
but the rollback block itself fails: a `rollback_error` step is recorded
and the job ends `failed` with the rollback error appended to the primary
error message. -/
theorem llm_exc_handler_rollback_fail (msg model fm : String) (sid : Nat)
    (pc pm : Option String) (started : Int) (e : PyErr) (w w2 : World) (r2 : String → Bool)
    (hjob : w.currentSwitch = none)
    (hguard : llm_rollback_condition w.pipeDisruptive (some fm) model = true)
    (hfail : llm_rollback_block fm sid pc pm
        { w with
          currentSwitch := none,
          pipeSteps := w.pipeSteps ++
            [{ step := "switch_error", at_ := toString w.now, ok := false, detail := msg }] }
      = (Except.error e, w2))
    (hjob2 : w2.currentSwitch = none)
    (henv2 : w2.docker = envFor (inspectBy r2) okStart okStop) :
    llm_exc_handler msg model sid (some fm) pc pm started w =
      (Except.ok
        { payload := famStatus r2
            { w2 with
              pipeSteps := w2.pipeSteps ++
                [{ step := "rollback_error", at_ := toString w2.now, ok := false,
                   detail := excMsg e }],
              lastError := some (msg ++ "; rollback failed: " ++ excMsg e),
              lastSwitchAt := some (toString w2.now) },
          switch_id := sid, status := "failed", from_model := some fm, to_model := model,
          steps := w2.pipeSteps ++
            [{ step := "rollback_error", at_ := toString w2.now, ok := false,
               detail := excMsg e }],
          duration_ms := (w2.now - started) * 1000,
          error := some (msg ++ "; rollback failed: " ++ excMsg e) },
        { w2 with
          pipeSteps := w2.pipeSteps ++
            [{ step := "rollback_error", at_ := toString w2.now, ok := false,
               detail := excMsg e }],
          lastError := some (msg ++ "; rollback failed: " ++ excMsg e),
          lastSwitchAt := some (toString w2.now),
          dockerLog := w2.dockerLog ++
            [("GET", "/containers/vllm-fast/json"), ("GET", "/containers/vllm-quality/json"),
             ("GET", "/containers/vllm-deepseek/json"), ("GET", "/containers/vllm-qwen32b/json"),
             ("GET", "/containers/litellm/json"), ("GET", "/containers/comfyui/json")] }) := by
  simp [llm_exc_handler, bind_apply, pure_apply, getWorld_apply, add_step_nojob,
    update_switch_state_nojob, set_runtime_state_err, switch_response, status_payload_env r2,
    monoTime_apply, attempt, hfail, hguard, hjob, hjob2, henv2]


/-- **C2 (amended).** The full rollback to the previous LLM is attempted
if and only if the disruptive boundary was crossed and `from_model` is a
non-blank catalogue model distinct from the target — the persisted mode
is not consulted.  When attempted and every substep succeeds, the rollback
restores the previously staged config and model, stops all backends,
starts the previous backend, waits for it, starts the gateway and
verifies the previous model, ending the job `rolled_back` with the
primary error recorded; if a rollback substep fails, the job ends
`failed` with the rollback error appended to the primary error message. -/
theorem C2_rollback (msg model fm : String) (meta : ModelMeta) (sid : Nat)
    (pc pm : Option String) (started : Int) (e : PyErr) (w w2 : World)
    (r r2 : String → Bool) :
    (∀ (ds : Bool) (fmo : Option String) (m : String),
      llm_rollback_condition ds fmo m = true ↔
        ds = true ∧ ∃ f, fmo = some f ∧ f ≠ "" ∧ (modelMeta? f).isSome = true ∧ f ≠ m)
    ∧ (modelMeta? fm = some meta →
       w.docker = envFor (inspectBy r) okStart okStop →
       w.currentSwitch = none →
       w.llm = llmAll →
       envFor (inspectBy r) okStart okStop "POST"
           ("/containers/" ++ meta.container ++ "/start") = DResp.resp 204 none "" →
       envFor (inspectBy r) okStart okStop "GET"
           ("/containers/" ++ meta.container ++ "/json")
           = DResp.resp 200 (some (inspInfo (r meta.container))) "" →
       meta.litellm_model ∈ MODELS.map (fun m => m.litellm_model) →
       w.pipeDisruptive = true → fm ≠ "" → fm ≠ model →
       ∃ resp w1,
         llm_exc_handler msg model sid (some fm) pc pm started w = (Except.ok resp, w1)
         ∧ resp.status = "rolled_back" ∧ resp.error = some msg
         ∧ resp.steps.map StepRec.step = w.pipeSteps.map StepRec.step ++
             ["switch_error", "rollback_restore_config", "rollback_stop_models",
              "rollback_start_previous", "rollback_litellm"]
         ∧ w1.activeConfigFile = pc ∧ w1.activeModelFile = pm
         ∧ w1.activeModeFile = some "llm\n" ∧ w1.leaseFile = none
         ∧ w1.dockerLog = w.dockerLog ++
             [("POST", "/containers/vllm-fast/stop"), ("POST", "/containers/vllm-quality/stop"),
              ("POST", "/containers/vllm-deepseek/stop"), ("POST", "/containers/vllm-qwen32b/stop"),
              ("GET", "/containers/" ++ meta.container ++ "/json"),
              ("POST", "/containers/" ++ meta.container ++ "/start"),
              ("GET", "/containers/" ++ meta.container ++ "/json"),
              ("POST", "/containers/litellm/start"),
              ("GET", "/containers/vllm-fast/json"), ("GET", "/containers/vllm-quality/json"),
              ("GET", "/containers/vllm-deepseek/json"), ("GET", "/containers/vllm-qwen32b/json"),
              ("GET", "/containers/litellm/json"), ("GET", "/containers/comfyui/json")])
    ∧ (w.currentSwitch = none →
       llm_rollback_condition w.pipeDisruptive (some fm) model = true →
       llm_rollback_block fm sid pc pm
           { w with
             currentSwitch := none,
             pipeSteps := w.pipeSteps ++
               [{ step := "switch_error", at_ := toString w.now, ok := false, detail := msg }] }
         = (Except.error e, w2) →
       w2.currentSwitch = none →
       w2.docker = envFor (inspectBy r2) okStart okStop →
       ∃ resp w3,
         llm_exc_handler msg model sid (some fm) pc pm started w = (Except.ok resp, w3)
         ∧ resp.status = "failed"
         ∧ resp.error = some (msg ++ "; rollback failed: " ++ excMsg e)
         ∧ resp.steps.map StepRec.step =
             w2.pipeSteps.map StepRec.step ++ ["rollback_error"]) := by
  refine ⟨?_, ?_, ?_⟩
  · intro ds fmo m
    cases ds <;> rcases fmo with _ | f <;>
      simp [llm_rollback_condition, and_assoc]
  · intro hm henv hjob hllm hstart hwait hmem hdisr hblank hne
    rw [llm_exc_handler_rollback_ok msg model fm meta sid pc pm started r w hm henv hjob hllm
      hstart hwait hmem hdisr hblank hne]
    exact ⟨_, _, rfl, rfl, rfl, by simp, rfl, rfl, rfl, rfl, rfl⟩
  · intro hjob hguard hfail hjob2 henv2
    rw [llm_exc_handler_rollback_fail msg model fm sid pc pm started e w w2 r2 hjob hguard
      hfail hjob2 henv2]
    exact ⟨_, _, rfl, rfl, rfl, by simp⟩


/-- The catalogue entry for `qwen-fast`. -/
def qwenMeta : ModelMeta :=
  { id := "qwen-fast", container := "vllm-fast", template := "qwen-fast.yml",
    litellm_model := "qwen-fast" }

/-- A failed disruptive switch situation whose persisted mode is `comfy`:
previous model file `qwen-fast`, no backend running, healthy docker
environment, gateway exposing every model. -/
def c2World : World :=
  { mkSituation true false false false false (some "qwen-fast") with pipeDisruptive := true }

/-- A failed disruptive switch situation in llm mode whose gateway only
ever answers 503, so that the rollback verification substep fails. -/
def c2FailWorld : World :=
  { mkSituation false false false false false (some "qwen-fast") with
    pipeDisruptive := true, llm := fun _ => LResp.resp 503 none }

/-- The world reached when the rollback block on `c2FailWorld` dies at the
gateway verification substep. -/
def c2FailEnd : World :=
  { c2FailWorld with
    currentSwitch := none,
    activeConfigFile := some "cfg", activeModelFile := some "qwen-fast",
    llmPolls := 45,
    pipeSteps := c2FailWorld.pipeSteps ++
      [{ step := "switch_error", at_ := toString c2FailWorld.now, ok := false,
         detail := "boom" },
       { step := "rollback_restore_config", at_ := toString c2FailWorld.now, ok := true,
         detail := "active config restored" },
       { step := "rollback_stop_models", at_ := toString c2FailWorld.now, ok := true,
         detail := "all vllm containers stopped" },
       { step := "rollback_start_previous", at_ := toString c2FailWorld.now, ok := true,
         detail := "restored qwen-fast" }],
    dockerLog := c2FailWorld.dockerLog ++
      [("POST", "/containers/vllm-fast/stop"), ("POST", "/containers/vllm-quality/stop"),
       ("POST", "/containers/vllm-deepseek/stop"), ("POST", "/containers/vllm-qwen32b/stop"),
       ("GET", "/containers/vllm-fast/json"),
       ("POST", "/containers/vllm-fast/start"),
       ("GET", "/containers/vllm-fast/json"),
       ("POST", "/containers/litellm/start")] }

/-- On `c2FailWorld`, after the `switch_error` step, the rollback block
fails at the gateway verification with the probe deadline error. -/
theorem c2_fail_block :
    llm_rollback_block "qwen-fast" 7 (some "cfg") (some "qwen-fast")
        { c2FailWorld with
          currentSwitch := none,
          pipeSteps := c2FailWorld.pipeSteps ++
            [{ step := "switch_error", at_ := toString c2FailWorld.now, ok := false,
               detail := "boom" }] }
      = (Except.error
            (PyErr.runtimeError "litellm did not expose model qwen-fast in time"),
          c2FailEnd) := by
  have henvF : c2FailWorld.docker
      = envFor (inspectBy (runBy false false false false)) okStart okStop := rfl
  have hllmF : c2FailWorld.llm = (fun _ => LResp.resp 503 none) := rfl
  have hstartF : c2FailWorld.docker "POST" ("/containers/" ++ "vllm-fast" ++ "/start")
      = DResp.resp 204 none "" := rfl
  have hwaitF : c2FailWorld.docker "GET" ("/containers/" ++ "vllm-fast" ++ "/json")
      = DResp.resp 200 (some (inspInfo false)) "" := rfl
  have hpolls : c2FailWorld.llmPolls = 0 := rfl
  simp [llm_rollback_block, restore_active_files, bind_apply, pure_apply, getWorld_apply,
    modifyWorld_apply, write_text_apply, remove_file_apply, add_step_nojob,
    update_switch_state_nojob, stop_models_env (runBy false false false false),
    container_json_200W hwaitF, container_start_204W hstartF, wait_ready_inspW hwaitF,
    start_env_litellm (runBy false false false false), wait_litellm_503W,
    modelMeta?, MODELS, c2FailEnd,
    World.writePath, World.removePath, henvF, hllmF, hpolls,
    LITELLM_CONTAINER, HEALTH_TIMEOUT_SECONDS, LITELLM_VERIFY_TIMEOUT_SECONDS]

/-- Counterexample to C2 as stated: the persisted mode of this situation
is `comfy`, not `llm`, yet the full rollback is attempted (and completes,
ending the job `rolled_back`) — the guard never consults the mode. -/
theorem C2_counterexample :
    read_mode_of c2World.activeModeFile = MODE_COMFY
    ∧ (match (llm_exc_handler "boom" "deepseek" 7 (some "qwen-fast") (some "cfg")
          (some "qwen-fast") 1000 c2World).1 with
       | Except.ok resp => resp.status = "rolled_back"
           ∧ resp.steps.map StepRec.step =
             ["switch_error", "rollback_restore_config", "rollback_stop_models",
              "rollback_start_previous", "rollback_litellm"]
       | Except.error _ => False) := by
  refine ⟨by decide, ?_⟩
  rw [llm_exc_handler_rollback_ok "boom" "deepseek" "qwen-fast" qwenMeta 7 (some "cfg")
    (some "qwen-fast") 1000 (runBy false false false false) c2World rfl rfl rfl rfl rfl rfl
    (by decide) rfl (by decide) (by decide)]
  simp [c2World, mkSituation, baseWorld]


/-- Witness for C2 (amended) at concrete inputs: the guard holds for a
crossed boundary with previous model `qwen-fast` and target `deepseek`;
on `c2World` the rollback completes and the job ends `rolled_back`; on
`c2FailWorld` the gateway verification substep fails and the job ends
`failed` with the rollback error appended. -/
theorem C2_rollback_witness :
    llm_rollback_condition true (some "qwen-fast") "deepseek" = true
    ∧ (∃ resp w1,
        llm_exc_handler "boom" "deepseek" 7 (some "qwen-fast") (some "cfg")
            (some "qwen-fast") 500 c2World = (Except.ok resp, w1)
        ∧ resp.status = "rolled_back" ∧ resp.error = some "boom"
        ∧ resp.steps.map StepRec.step = c2World.pipeSteps.map StepRec.step ++
            ["switch_error", "rollback_restore_config", "rollback_stop_models",
             "rollback_start_previous", "rollback_litellm"]
        ∧ w1.activeConfigFile = some "cfg" ∧ w1.activeModelFile = some "qwen-fast"
        ∧ w1.activeModeFile = some "llm\n" ∧ w1.leaseFile = none
        ∧ w1.dockerLog = c2World.dockerLog ++
            [("POST", "/containers/vllm-fast/stop"), ("POST", "/containers/vllm-quality/stop"),
             ("POST", "/containers/vllm-deepseek/stop"), ("POST", "/containers/vllm-qwen32b/stop"),
             ("GET", "/containers/vllm-fast/json"),
             ("POST", "/containers/vllm-fast/start"),
             ("GET", "/containers/vllm-fast/json"),
             ("POST", "/containers/litellm/start"),
             ("GET", "/containers/vllm-fast/json"), ("GET", "/containers/vllm-quality/json"),
             ("GET", "/containers/vllm-deepseek/json"), ("GET", "/containers/vllm-qwen32b/json"),
             ("GET", "/containers/litellm/json"), ("GET", "/containers/comfyui/json")])
    ∧ (∃ resp w3,
        llm_exc_handler "boom" "deepseek" 7 (some "qwen-fast") (some "cfg")
            (some "qwen-fast") 500 c2FailWorld = (Except.ok resp, w3)
        ∧ resp.status = "failed"
        ∧ resp.error = some ("boom" ++ "; rollback failed: "
            ++ excMsg (PyErr.runtimeError "litellm did not expose model qwen-fast in time"))
        ∧ resp.steps.map StepRec.step =
            c2FailEnd.pipeSteps.map StepRec.step ++ ["rollback_error"]) := by
  refine ⟨?_, ?_, ?_⟩
  · exact (C2_rollback "boom" "deepseek" "qwen-fast" qwenMeta 7 (some "cfg")
      (some "qwen-fast") 500 (PyErr.runtimeError "litellm did not expose model qwen-fast in time")
      c2World c2FailEnd (runBy false false false false) (runBy false false false false)).1
      true (some "qwen-fast") "deepseek" |>.mpr
      ⟨rfl, "qwen-fast", rfl, by decide, by decide, by decide⟩
  · exact (C2_rollback "boom" "deepseek" "qwen-fast" qwenMeta 7 (some "cfg")
      (some "qwen-fast") 500 (PyErr.runtimeError "litellm did not expose model qwen-fast in time")
      c2World c2FailEnd (runBy false false false false) (runBy false false false false)).2.1
      rfl rfl rfl rfl rfl rfl (by decide) rfl (by decide) (by decide)
  · exact (C2_rollback "boom" "deepseek" "qwen-fast" qwenMeta 7 (some "cfg")
      (some "qwen-fast") 500 (PyErr.runtimeError "litellm did not expose model qwen-fast in time")
      c2FailWorld c2FailEnd (runBy false false false false) (runBy false false false false)).2.2
      rfl (by decide) c2_fail_block rfl rfl


/-- **C6.** Writing the active mode with any valid value other than
`comfy` removes the lease file; consequently the persisted lease is
absent after the no-op and the disruptive successful LLM switch branches,
after a completed rollback, and after `POST /stop`. -/
theorem C6_lease_cleanup :
    (∀ (mode : String) (w w1 : World) (u : Unit),
      set_active_mode mode w = (Except.ok u, w1) → mode ≠ MODE_COMFY →
        w1.leaseFile = none)
    ∧ (∀ (model : String) (sid : Nat) (fm : Option String) (started : Int)
        (r : String → Bool) (w : World),
        w.docker = envFor (inspectBy r) okStart okStop → w.currentSwitch = none →
        (llm_noop_branch model sid fm started w).2.leaseFile = none)
    ∧ (∀ (model : String) (meta : ModelMeta) (c : String) (sid : Nat) (fm : Option String)
        (started : Int) (r : String → Bool) (w : World),
        w.docker = envFor (inspectBy r) okStart okStop → w.currentSwitch = none →
        w.llm = llmAll → modelMeta? model = some meta →
        w.templates.find? (fun t => t.1 == meta.template) = some (meta.template, c) →
        w.docker "POST" ("/containers/" ++ meta.container ++ "/start")
          = DResp.resp 204 none "" →
        w.docker "GET" ("/containers/" ++ meta.container ++ "/json")
          = DResp.resp 200 (some (inspInfo (r meta.container))) "" →
        meta.litellm_model ∈ MODELS.map (fun m => m.litellm_model) →
        (llm_main_branch model meta.container sid fm started w).2.leaseFile = none)
    ∧ (∀ (msg model fm : String) (meta : ModelMeta) (sid : Nat) (pc pm : Option String)
        (started : Int) (r : String → Bool) (w : World),
        modelMeta? fm = some meta →
        w.docker = envFor (inspectBy r) okStart okStop → w.currentSwitch = none →
        w.llm = llmAll →
        envFor (inspectBy r) okStart okStop "POST"
          ("/containers/" ++ meta.container ++ "/start") = DResp.resp 204 none "" →
        envFor (inspectBy r) okStart okStop "GET"
          ("/containers/" ++ meta.container ++ "/json")
          = DResp.resp 200 (some (inspInfo (r meta.container))) "" →
        meta.litellm_model ∈ MODELS.map (fun m => m.litellm_model) →
        w.pipeDisruptive = true → fm ≠ "" → fm ≠ model →
        (llm_exc_handler msg model sid (some fm) pc pm started w).2.leaseFile = none)
    ∧ (∀ (r : String → Bool) (w : World),
        w.docker = envFor (inspectBy r) okStart okStop →
        (stop w).2.leaseFile = none ∧ ∃ st, (stop w).1 = Except.ok st) := by
  refine ⟨?_, ?_, ?_, ?_, ?_⟩
  · intro mode w w1 u h hmode
    by_cases hv : mode ∈ VALID_MODES
    · have he : set_active_mode mode w
          = (Except.ok (),
              { w with activeModeFile := some (mode ++ "\n"), leaseFile := none }) := by
        simp [set_active_mode, bind_apply, pure_apply, write_text_apply, remove_file_apply,
          World.writePath, World.removePath, hv, hmode]
      rw [he] at h
      have h2 : ({ w with activeModeFile := some (mode ++ "\n"), leaseFile := none } : World)
          = w1 := congrArg Prod.snd h
      rw [← h2]
    · have he : set_active_mode mode w
          = (Except.error (PyErr.runtimeError ("invalid mode: " ++ mode)), w) := by
        simp [set_active_mode, bind_apply, throwErr_apply, hv]
      rw [he] at h
      exact absurd (congrArg Prod.fst h) (by simp)
  · intro model sid fm started r w henv hjob
    rw [llm_noop_branch_run model sid fm started r w henv hjob]
  · intro model meta c sid fm started r w henv hjob hllm hm hconf hstart hwait hmem
    rw [llm_main_branch_run model meta c sid fm started r w henv hjob hllm hm hconf hstart
      hwait hmem]
  · intro msg model fm meta sid pc pm started r w hm henv hjob hllm hstart hwait hmem hdisr
      hblank hne
    rw [llm_exc_handler_rollback_ok msg model fm meta sid pc pm started r w hm henv hjob hllm
      hstart hwait hmem hdisr hblank hne]
  · intro r w henv
    constructor
    · simp [stop, bind_apply, pure_apply, stop_models_env r, stop_env_comfyui r,
        set_active_mode_llm, clear_comfy_lease_apply, status_payload_env r,
        World.writePath, World.removePath, henv, MODE_LLM, COMFY_CONTAINER]
    · simp [stop, bind_apply, pure_apply, stop_models_env r, stop_env_comfyui r,
        set_active_mode_llm, clear_comfy_lease_apply, status_payload_env r,
        World.writePath, World.removePath, henv, MODE_LLM, COMFY_CONTAINER]

/-- Witness for C6 at concrete inputs: writing mode llm on the base world
drops the lease; the lease is gone after a no-op switch, a disruptive
switch, a completed rollback, and a stop, each run on a comfy-mode world
holding a lease. -/
theorem C6_lease_cleanup_witness :
    ((baseWorld.writePath PathId.activeMode ("llm" ++ "\n")).removePath
        PathId.comfyLease).leaseFile = none
    ∧ (llm_noop_branch "qwen-fast" 7 (some "qwen-fast") 500
        (mkSituation true true false false false (some "qwen-fast"))).2.leaseFile = none
    ∧ (llm_main_branch "qwen-fast" qwenMeta.container 7 (some "deepseek") 500
        (mkSituation true false false false false (some "qwen-fast"))).2.leaseFile = none
    ∧ (llm_exc_handler "boom" "deepseek" 7 (some "qwen-fast") (some "cfg")
        (some "qwen-fast") 500 c2World).2.leaseFile = none
    ∧ ((stop (mkSituation true false false false false (some "qwen-fast"))).2.leaseFile = none
        ∧ ∃ st,
          (stop (mkSituation true false false false false (some "qwen-fast"))).1
            = Except.ok st) := by
  refine ⟨?_, ?_, ?_, ?_, ?_⟩
  · exact C6_lease_cleanup.1 "llm" baseWorld
      ((baseWorld.writePath PathId.activeMode ("llm" ++ "\n")).removePath PathId.comfyLease)
      () rfl (by decide)
  · exact C6_lease_cleanup.2.1 "qwen-fast" 7 (some "qwen-fast") 500
      (runBy true false false false)
      (mkSituation true true false false false (some "qwen-fast")) rfl rfl
  · exact C6_lease_cleanup.2.2.1 "qwen-fast" qwenMeta "config for qwen-fast" 7
      (some "deepseek") 500 (runBy false false false false)
      (mkSituation true false false false false (some "qwen-fast")) rfl rfl rfl rfl rfl rfl
      rfl (by decide)
  · exact C6_lease_cleanup.2.2.2.1 "boom" "deepseek" "qwen-fast" qwenMeta 7 (some "cfg")
      (some "qwen-fast") 500 (runBy false false false false) c2World rfl rfl rfl rfl rfl rfl
      (by decide) rfl (by decide) (by decide)
  · exact C6_lease_cleanup.2.2.2.2 (runBy false false false false)
      (mkSituation true false false false false (some "qwen-fast")) rfl

end AICompose
